import Mathlib

/-!
Shallow embedding of the game-state engine of `car_game_enhanced.py`.

The simulation core (geometry constants, particle system, obstacle
spawning/advancing/retiring, collision and scoring, and the
play / game-over / restart state machine of `main`) is translated into
executable Lean definitions.  Pixel coordinates and speeds, which are
Python floats in the source, are modelled as rationals; Python ints are
modelled as `Int`.  Randomness (`random.uniform`, `random.randint`,
`random.choice`) and the camera/hand input are modelled as per-tick
oracle inputs: each random draw is computed from an oracle value mapped
into the exact support the corresponding `random` call has in the source.
Rendering, fonts, the camera preview and the event loop are out of scope
(the spec treats them as external collaborators); the per-tick state
mutations of `main`'s while-loop are modelled in their source order.
-/

-- The Batteries rational-number operations are marked irreducible, which
-- blocks `decide`'s evaluation of concrete game traces; the kernel itself
-- unfolds them regardless, so making them semireducible only lets the
-- elaborator perform the same computation the kernel re-checks.
set_option allowUnsafeReducibility true in
attribute [semireducible] Rat.add Rat.mul Rat.sub Rat.div Rat.inv Rat.neg

namespace CarGame

/-- RGB colour triple (Python tuples of ints). -/
abbrev Color := ℤ × ℤ × ℤ

/-- Enemy palette: `(body, dark)` pair of colours, as in `ENEMY_PALETTES`. -/
abbrev Palette := Color × Color

-- ── Layout constants (source lines 32-47) ─────────────────────────────────

def WIN_W : ℤ := 800
def WIN_H : ℤ := 600
def ROAD_L : ℤ := 80
def ROAD_R : ℤ := 720
def ROAD_W : ℤ := ROAD_R - ROAD_L
def LANE_COUNT : ℕ := 3
def LANE_W : ℤ := ROAD_W / LANE_COUNT
def LANE_X : List ℤ := (List.range LANE_COUNT).map fun i => ROAD_L + LANE_W * i + LANE_W / 2

def CAR_W : ℤ := 52
def CAR_H : ℤ := 84
def ENEMY_W : ℤ := 52
def ENEMY_H : ℤ := 84

def FPS : ℤ := 60
def DASH_LEN : ℤ := 40
def DASH_GAP : ℤ := 30
def MAX_ENEMIES : ℕ := 12
def MAX_SPEED : ℚ := 18

def ENEMY_PALETTES : List Palette :=
  [((220,  50,  50), (140,  20,  20)),
   ((255, 140,   0), (180,  80,   0)),
   ((160,  50, 220), (100,  20, 150)),
   (( 50, 200, 100), ( 20, 130,  50)),
   ((200, 200,  50), (130, 130,  10))]

-- ── Helpers (source lines 59-73) ──────────────────────────────────────────

/-- Python `int(...)` applied to a float: truncation toward zero. -/
def pyint (q : ℚ) : ℤ := if 0 ≤ q then q.floor else -(-q).floor

/-- Python `%` on floats with a positive divisor (`x % step`). -/
def pyfmod (x m : ℚ) : ℚ := x - m * ((x / m).floor : ℚ)

def lerp (a b t : ℚ) : ℚ := a + (b - a) * t

/-- `hand_lane(hand_x, frame_w)`: maps an optional horizontal coordinate to a
lane index; `None` defaults to the center lane. -/
def hand_lane (hand_x : Option ℚ) (frame_w : ℚ) : ℕ :=
  match hand_x with
  | none => 1
  | some hx =>
    let thirds := frame_w / 3
    if hx < thirds then 0
    else if hx < 2 * thirds then 1
    else 2

-- ── Rectangles and pygame collision ───────────────────────────────────────

structure Rect where
  x : ℤ
  y : ℤ
  w : ℤ
  h : ℤ
deriving DecidableEq, Repr

/-- `pygame.Rect.colliderect`: strict overlap of two rectangles (rectangles of
zero width or height never collide; touching edges do not collide). -/
def colliderect (a b : Rect) : Bool :=
  decide (a.w ≠ 0 ∧ a.h ≠ 0 ∧ b.w ≠ 0 ∧ b.h ≠ 0 ∧
    b.x < a.x + a.w ∧ b.y < a.y + a.h ∧ a.x < b.x + b.w ∧ a.y < b.y + b.h)

-- ── Particle system (source lines 127-155) ────────────────────────────────

structure Particle where
  x : ℚ
  y : ℚ
  vx : ℚ
  vy : ℚ
  life : ℤ
  maxLife : ℤ
  color : Color
  size : ℤ
deriving DecidableEq, Repr

/-- Oracle values standing for the random draws made when a `Particle` is
constructed: `cosA`/`sinA` stand for the cosine and sine of the uniformly
random angle, `speed` for `random.uniform(2, 9)`, and the `ℕ` fields are
mapped into the exact supports of the corresponding `random.randint` /
`random.choice` calls. -/
structure PSeed where
  cosA : ℚ
  sinA : ℚ
  speed : ℚ
  lifeR : ℕ
  colorR : ℕ
  sizeR : ℕ
deriving Repr

instance : Inhabited PSeed := ⟨⟨1, 0, 2, 0, 0, 0⟩⟩

/-- `Particle.__init__`: velocity from angle and speed, `life = max_life =
random.randint(25, 50)`, `size = random.randint(3, 8)`. -/
def Particle.make (x y : ℚ) (color : Color) (sd : PSeed) : Particle :=
  { x := x, y := y,
    vx := sd.cosA * sd.speed, vy := sd.sinA * sd.speed,
    life := 25 + ((sd.lifeR % 26 : ℕ) : ℤ),
    maxLife := 25 + ((sd.lifeR % 26 : ℕ) : ℤ),
    color := color,
    size := 3 + ((sd.sizeR % 6 : ℕ) : ℤ) }

/-- `Particle.update`: position += velocity, gravity on `vy`, `life -= 1`. -/
def Particle.update (p : Particle) : Particle :=
  { p with x := p.x + p.vx, y := p.y + p.vy, vy := p.vy + 1/4, life := p.life - 1 }

/-- `explode(particles, x, y, palette)`: appends 40 particles at `(x, y)`,
each coloured by a uniformly random choice among the palette's two tones and
two fixed accent colours. -/
def explode (particles : List Particle) (x y : ℚ) (pal : Palette) (sd : ℕ → PSeed) :
    List Particle :=
  particles ++ (List.range 40).map fun j =>
    let s := sd j
    let c := [pal.1, pal.2, ((255 : ℤ), 255, 200), ((255 : ℤ), 180, 0)].getD (s.colorR % 4) pal.1
    Particle.make x y c s

-- ── Game state (source lines 219-236) ─────────────────────────────────────

/-- An enemy car: `[cx, y, palette]` in the source's `s['enemies']`. -/
structure Enemy where
  cx : ℤ
  y : ℚ
  pal : Palette
deriving DecidableEq, Repr

/-- The session state dictionary `s` built by `reset_state` (the camera frame
buffer is out of scope). -/
structure GameState where
  car_lane : ℕ
  car_x : ℚ
  car_y : ℤ
  score : ℤ
  lives : ℤ
  enemies : List Enemy
  enemy_spd : ℚ
  spawn_cd : ℤ
  game_over : Bool
  go_timer : ℤ
  tick : ℤ
  dash_off : ℚ
  hand_x : Option ℚ
  particles : List Particle
deriving DecidableEq, Repr

/-- `reset_state()`. -/
def resetState : GameState :=
  { car_lane := 1
    car_x := ((LANE_X.getD 1 0 - CAR_W / 2 : ℤ) : ℚ)
    car_y := WIN_H - CAR_H - 24
    score := 0
    lives := 3
    enemies := []
    enemy_spd := 5
    spawn_cd := 70
    game_over := false
    go_timer := 0
    tick := 0
    dash_off := 0
    hand_x := none
    particles := [] }

/-- Per-tick oracle input: `cam = some h` means the camera was processed this
tick and `s['hand_x']` is set to `h`; `w` is the camera frame width consumed
by `hand_lane`; `rLane`, `rPal`, `rJit` feed the spawn randomness; `seeds i j`
feeds the `j`-th particle of an explosion for the enemy at index `i`. -/
structure Input where
  cam : Option (Option ℚ)
  w : ℚ
  rLane : ℕ
  rPal : ℕ
  rJit : ℕ
  seeds : ℕ → ℕ → PSeed

-- ── Per-tick transition (source lines 245-382) ────────────────────────────

/-- Start-of-tick bookkeeping that happens before the game logic: the tick
counter, the camera/hand update, and the scrolling dash offset
(`s['dash_off'] = (s['dash_off'] + s['enemy_spd']*0.6) % (DASH_LEN+DASH_GAP)`). -/
def preUpdate (s : GameState) (inp : Input) : GameState :=
  { s with
    tick := s.tick + 1
    hand_x := match inp.cam with | none => s.hand_x | some h => h
    dash_off := pyfmod (s.dash_off + s.enemy_spd * (6/10)) ((DASH_LEN + DASH_GAP : ℤ) : ℚ) }

/-- Target lane for this tick (`hand_lane(s['hand_x'], w)`). -/
def targetLane (s : GameState) (inp : Input) : ℕ := hand_lane s.hand_x inp.w

/-- `target_x = float(LANE_X[target_lane] - CAR_W//2)`. -/
def targetX (s : GameState) (inp : Input) : ℚ :=
  ((LANE_X.getD (targetLane s inp) 0 - CAR_W / 2 : ℤ) : ℚ)

/-- The smoothed player x position: `lerp(s['car_x_px'], target_x, 0.25)`. -/
def newCarX (s : GameState) (inp : Input) : ℚ := lerp s.car_x (targetX s inp) (1/4)

/-- `car_rect = pygame.Rect(int(s['car_x_px']), s['car_y'], CAR_W, CAR_H)`. -/
def carRect (s : GameState) (inp : Input) : Rect :=
  ⟨pyint (newCarX s inp), s.car_y, CAR_W, CAR_H⟩

/-- `base_interval = max(25, 70 - s['score'] // 5)` (Python floor division,
which for the positive divisor 5 is `Int.ediv`, Lean's `/` on `ℤ`). -/
def base_interval (score : ℤ) : ℤ := max 25 (70 - score / 5)

/-- The spawn step: decrement the countdown; if it is `≤ 0` and the enemy
count is below the cap, append an enemy at a random lane's center just above
the screen and reset the countdown to `base_interval + random.randint(-8, 8)`.
Returns the (possibly extended) enemy list and the new countdown. -/
def spawnPhase (s : GameState) (inp : Input) : List Enemy × ℤ :=
  let cd1 := s.spawn_cd - 1
  if cd1 ≤ 0 ∧ s.enemies.length < MAX_ENEMIES then
    let lane := inp.rLane % LANE_COUNT
    let pal := ENEMY_PALETTES.getD (inp.rPal % ENEMY_PALETTES.length) (((0,0,0) : Color), ((0,0,0) : Color))
    (s.enemies ++ [⟨LANE_X.getD lane 0, ((-ENEMY_H : ℤ) : ℚ), pal⟩],
     base_interval s.score + (((inp.rJit % 17 : ℕ) : ℤ) - 8))
  else (s.enemies, cd1)

/-- `erect = pygame.Rect(int(cx - ENEMY_W//2), int(ey), ENEMY_W, ENEMY_H)`. -/
def enemyRect (cx : ℤ) (ey : ℚ) : Rect := ⟨cx - ENEMY_W / 2, pyint ey, ENEMY_W, ENEMY_H⟩

/-- How the enemy-update loop resolved one enemy on one tick: kept on screen,
removed by collision with the player, or removed off the bottom (scoring). -/
inductive Outcome where
  | kept
  | hit
  | exited
deriving DecidableEq, Repr

/-- Accumulated mutable state of the enemy-update loop (lines 320-341): the
fields of `s` the loop writes, plus each processed enemy (with its updated
`y`) paired with how it was resolved; `del`-ing `to_remove` afterwards keeps
exactly the `.kept` entries. -/
structure LoopAcc where
  spd : ℚ
  score : ℤ
  lives : ℤ
  game_over : Bool
  go_timer : ℤ
  particles : List Particle
  out : List (Enemy × Outcome)
deriving Repr

/-- One iteration of the enemy-update loop: move the enemy down by the current
speed, then either resolve a rect collision (explosion, lose a life, maybe
game over), or retire it off the bottom (score, every 8th point speeds up,
capped), or keep it. -/
def processEnemy (car : Rect) (sd : ℕ → ℕ → PSeed) (i : ℕ) (a : LoopAcc) (e : Enemy) :
    LoopAcc :=
  let ey := e.y + a.spd
  let e' : Enemy := { e with y := ey }
  if colliderect car (enemyRect e.cx ey) then
    let lives1 := a.lives - 1
    { a with
      lives := lives1
      particles := explode a.particles ((e.cx : ℚ)) ((pyint (ey + ((ENEMY_H / 2 : ℤ) : ℚ)) : ℤ) : ℚ) e.pal (sd i)
      game_over := if lives1 ≤ 0 then true else a.game_over
      go_timer := if lives1 ≤ 0 then FPS * 2 else a.go_timer
      out := a.out ++ [(e', Outcome.hit)] }
  else if ((WIN_H : ℤ) : ℚ) < ey then
    let score1 := a.score + 1
    { a with
      score := score1
      spd := if score1 % 8 = 0 then min MAX_SPEED (a.spd + 1/2) else a.spd
      out := a.out ++ [(e', Outcome.exited)] }
  else
    { a with out := a.out ++ [(e', Outcome.kept)] }

/-- The full `for i, (cx, ey, pal) in enumerate(s['enemies'])` loop. -/
def runLoop (car : Rect) (sd : ℕ → ℕ → PSeed) : ℕ → LoopAcc → List Enemy → LoopAcc
  | _, a, [] => a
  | i, a, e :: rest => runLoop car sd (i + 1) (processEnemy car sd i a e) rest

/-- The loop accumulator a Playing tick starts from. -/
def acc0 (s : GameState) : LoopAcc :=
  ⟨s.enemy_spd, s.score, s.lives, s.game_over, s.go_timer, s.particles, []⟩

/-- Result of the enemy-update loop of one Playing tick. -/
def tickAcc (s : GameState) (inp : Input) : LoopAcc :=
  runLoop (carRect s inp) inp.seeds 0 (acc0 s) (spawnPhase s inp).1

/-- `for i in reversed(sorted(set(to_remove))): del s['enemies'][i]` — the
enemies kept are exactly those the loop did not mark for removal. -/
def keptOf (out : List (Enemy × Outcome)) : List Enemy :=
  out.filterMap fun en => match en.2 with | Outcome.kept => some en.1 | _ => none

/-- The game-logic block of a tick when `s['game_over']` is false
(lines 301-341). -/
def playStep (s : GameState) (inp : Input) : GameState :=
  { s with
    car_lane := targetLane s inp
    car_x := newCarX s inp
    spawn_cd := (spawnPhase s inp).2
    enemies := keptOf (tickAcc s inp).out
    enemy_spd := (tickAcc s inp).spd
    score := (tickAcc s inp).score
    lives := (tickAcc s inp).lives
    game_over := (tickAcc s inp).game_over
    go_timer := (tickAcc s inp).go_timer
    particles := (tickAcc s inp).particles }

/-- The game-over block of a tick (lines 372-376): count the cooldown down;
once it is spent, a visible hand restarts with a full state reset. -/
def goStep (s : GameState) : GameState :=
  if 0 < s.go_timer then { s with go_timer := s.go_timer - 1 }
  else if s.hand_x ≠ none then resetState
  else s

/-- The particle block of a tick (lines 379-382): every particle is advanced,
then particles whose life is spent are pruned. -/
def particleTick (l : List Particle) : List Particle :=
  (l.map Particle.update).filter fun p => 0 < p.life

def particlePhase (s : GameState) : GameState :=
  { s with particles := particleTick s.particles }

/-- One full iteration of the main while-loop, as it acts on the session
state. -/
def step (s : GameState) (inp : Input) : GameState :=
  particlePhase
    (if (preUpdate s inp).game_over then goStep (preUpdate s inp)
     else playStep (preUpdate s inp) inp)

/-- Iterating the main loop from a state over a list of per-tick inputs. -/
def run (s : GameState) : List Input → GameState
  | [] => s
  | i :: l => run (step s i) l

/-- A session state is reachable if some sequence of per-tick oracle inputs
produces it from the freshly reset state the program starts in. -/
def Reachable (s : GameState) : Prop := ∃ l : List Input, run resetState l = s

-- ── Specification-level functions and the session invariant ───────────────

/-- The obstacle speed as a function of the score: starting at 5, it gains
`1/2` at every multiple of 8 the score has crossed, capped at `MAX_SPEED`. -/
def spdOf (score : ℤ) : ℚ := min MAX_SPEED (5 + ((score / 8 : ℤ) : ℚ) * (1/2))

/-- The inductive invariant of a session state: what stays true from the
initial state under every possible tick.  Besides the externally interesting
facts (lives/game-over coupling, score sign, the speed law, the enemy cap) it
carries the geometric facts making them inductive: every enemy sits at a lane
center, enemies keep a vertical gap so large that the player can never hit
two of them on one tick, and the youngest enemy's travel so far is coupled to
the spawn countdown and spawn interval. -/
structure Inv (s : GameState) : Prop where
  score_nonneg : 0 ≤ s.score
  lives_go : s.game_over = true → s.lives = 0
  lives_play : s.game_over = false → 1 ≤ s.lives ∧ s.lives ≤ 3
  spd_eq : s.enemy_spd = spdOf s.score
  car_y_eq : s.car_y = 492
  count_le : s.enemies.length ≤ MAX_ENEMIES
  lanes : ∀ e ∈ s.enemies, e.cx ∈ LANE_X
  gaps : s.enemies.Pairwise (fun a b => b.y + (186 - s.enemy_spd) ≤ a.y)
  newest : ∀ last, s.enemies.getLast? = some last → ∃ σ : ℤ, 0 ≤ σ ∧ σ ≤ s.score ∧
    ((base_interval σ - 8 - s.spawn_cd : ℤ) : ℚ) * spdOf σ ≤ last.y + 84

/-- An enemy is safe for this tick when no movement amount the loop could use
makes it overlap the player. -/
def SafeE (car : Rect) (lo : ℚ) (e : Enemy) : Prop :=
  ∀ c : ℚ, lo ≤ c → c ≤ 18 → colliderect car (enemyRect e.cx (e.y + c)) = false

def SafeList (car : Rect) (lo : ℚ) (l : List Enemy) : Prop := ∀ e ∈ l, SafeE car lo e


-- ── Concrete inputs and states used by witnesses ───────────────────────

/-- A tick input with no camera update and fixed spawn randomness. -/
def inpNone : Input :=
  { cam := none, w := 640, rLane := 0, rPal := 0, rJit := 0, seeds := fun _ _ => default }

/-- A tick input that stores a visible hand at pixel 100. -/
def inpHand : Input :=
  { cam := some (some 100), w := 640, rLane := 0, rPal := 0, rJit := 0,
    seeds := fun _ _ => default }

/-- A game-over state two seconds of cooldown away from accepting a restart,
with one live particle. -/
def coolState : GameState :=
  { resetState with
    game_over := true
    lives := 0
    go_timer := 120
    particles := [Particle.make 5 5 (0, 0, 0) default] }


-- ── Concrete traces deciding the C3 and C8 counterexamples ─────────────

/-- Input of the C8 trace: no camera update, spawns in lane 1 with zero
jitter. -/
def inpC8 : Input :=
  { cam := none, w := 640, rLane := 1, rPal := 0, rJit := 8, seeds := fun _ _ => default }

def c3s1 : GameState := { car_lane := 1, car_x := 373, car_y := 492, score := 0, lives := 3, enemies := [{ cx := 186, y := 71, pal := ((220, 50, 50), 140, 20, 20) }], enemy_spd := 5, spawn_cd := 32, game_over := false, go_timer := 0, tick := 100, dash_off := 20, hand_x := none, particles := [] }
def c3s2 : GameState := { car_lane := 1, car_x := 373, car_y := 492, score := 0, lives := 3, enemies := [{ cx := 186, y := 571, pal := ((220, 50, 50), 140, 20, 20) }, { cx := 186, y := 261, pal := ((220, 50, 50), 140, 20, 20) }, { cx := 186, y := -49, pal := ((220, 50, 50), 140, 20, 20) }], enemy_spd := 5, spawn_cd := 56, game_over := false, go_timer := 0, tick := 200, dash_off := 40, hand_x := none, particles := [] }
def c3s3 : GameState := { car_lane := 1, car_x := 373, car_y := 492, score := 2, lives := 3, enemies := [{ cx := 186, y := 451, pal := ((220, 50, 50), 140, 20, 20) }, { cx := 186, y := 141, pal := ((220, 50, 50), 140, 20, 20) }], enemy_spd := 5, spawn_cd := 18, game_over := false, go_timer := 0, tick := 300, dash_off := 60, hand_x := none, particles := [] }
def c3s4 : GameState := { car_lane := 1, car_x := 373, car_y := 492, score := 4, lives := 3, enemies := [{ cx := 186, y := 331, pal := ((220, 50, 50), 140, 20, 20) }, { cx := 186, y := 21, pal := ((220, 50, 50), 140, 20, 20) }], enemy_spd := 5, spawn_cd := 42, game_over := false, go_timer := 0, tick := 400, dash_off := 10, hand_x := none, particles := [] }
def c3s5 : GameState := { car_lane := 1, car_x := 373, car_y := 492, score := 5, lives := 3, enemies := [{ cx := 186, y := 521, pal := ((220, 50, 50), 140, 20, 20) }, { cx := 186, y := 211, pal := ((220, 50, 50), 140, 20, 20) }], enemy_spd := 5, spawn_cd := 4, game_over := false, go_timer := 0, tick := 500, dash_off := 30, hand_x := none, particles := [] }
def c3s6 : GameState := { car_lane := 1, car_x := 373, car_y := 492, score := 7, lives := 3, enemies := [{ cx := 186, y := 401, pal := ((220, 50, 50), 140, 20, 20) }, { cx := 186, y := 96, pal := ((220, 50, 50), 140, 20, 20) }], enemy_spd := 5, spawn_cd := 26, game_over := false, go_timer := 0, tick := 600, dash_off := 50, hand_x := none, particles := [] }
def c3s7 : GameState := { car_lane := 1, car_x := 373, car_y := 492, score := 9, lives := 3, enemies := [{ cx := 186, y := (643 : Rat)/2, pal := ((220, 50, 50), 140, 20, 20) }, { cx := 186, y := -7, pal := ((220, 50, 50), 140, 20, 20) }], enemy_spd := (11 : Rat)/2, spawn_cd := 48, game_over := false, go_timer := 0, tick := 700, dash_off := 18, hand_x := none, particles := [] }
def c3s8 : GameState := { car_lane := 1, car_x := 373, car_y := 492, score := 10, lives := 3, enemies := [{ cx := 186, y := 543, pal := ((220, 50, 50), 140, 20, 20) }, { cx := 186, y := (415 : Rat)/2, pal := ((220, 50, 50), 140, 20, 20) }], enemy_spd := (11 : Rat)/2, spawn_cd := 9, game_over := false, go_timer := 0, tick := 800, dash_off := 68, hand_x := none, particles := [] }
def c3s9 : GameState := { car_lane := 1, car_x := 373, car_y := 492, score := 12, lives := 3, enemies := [{ cx := 186, y := 422, pal := ((220, 50, 50), 140, 20, 20) }, { cx := 186, y := 92, pal := ((220, 50, 50), 140, 20, 20) }], enemy_spd := (11 : Rat)/2, spawn_cd := 29, game_over := false, go_timer := 0, tick := 900, dash_off := 48, hand_x := none, particles := [] }
def c3s10 : GameState := { car_lane := 1, car_x := 373, car_y := 492, score := 14, lives := 3, enemies := [{ cx := 186, y := 312, pal := ((220, 50, 50), 140, 20, 20) }, { cx := 186, y := -18, pal := ((220, 50, 50), 140, 20, 20) }], enemy_spd := (11 : Rat)/2, spawn_cd := 49, game_over := false, go_timer := 0, tick := 1000, dash_off := 28, hand_x := none, particles := [] }
def c3s11 : GameState := { car_lane := 1, car_x := 373, car_y := 492, score := 15, lives := 3, enemies := [{ cx := 186, y := 532, pal := ((220, 50, 50), 140, 20, 20) }, { cx := 186, y := 202, pal := ((220, 50, 50), 140, 20, 20) }], enemy_spd := (11 : Rat)/2, spawn_cd := 9, game_over := false, go_timer := 0, tick := 1100, dash_off := 8, hand_x := none, particles := [] }
def c3s12 : GameState := { car_lane := 1, car_x := 373, car_y := 492, score := 17, lives := 3, enemies := [{ cx := 186, y := 466, pal := ((220, 50, 50), 140, 20, 20) }, { cx := 186, y := 114, pal := ((220, 50, 50), 140, 20, 20) }], enemy_spd := 6, spawn_cd := 27, game_over := false, go_timer := 0, tick := 1200, dash_off := (141 : Rat)/10, hand_x := none, particles := [] }
def c3s13 : GameState := { car_lane := 1, car_x := 373, car_y := 492, score := 19, lives := 3, enemies := [{ cx := 186, y := 360, pal := ((220, 50, 50), 140, 20, 20) }, { cx := 186, y := 6, pal := ((220, 50, 50), 140, 20, 20) }], enemy_spd := 6, spawn_cd := 45, game_over := false, go_timer := 0, tick := 1300, dash_off := (241 : Rat)/10, hand_x := none, particles := [] }
def c3s14 : GameState := { car_lane := 1, car_x := 373, car_y := 492, score := 21, lives := 3, enemies := [{ cx := 186, y := 252, pal := ((220, 50, 50), 140, 20, 20) }], enemy_spd := 6, spawn_cd := 3, game_over := false, go_timer := 0, tick := 1400, dash_off := (341 : Rat)/10, hand_x := none, particles := [] }
def c3s15 : GameState := { car_lane := 1, car_x := 373, car_y := 492, score := 22, lives := 3, enemies := [{ cx := 186, y := 504, pal := ((220, 50, 50), 140, 20, 20) }, { cx := 186, y := 156, pal := ((220, 50, 50), 140, 20, 20) }], enemy_spd := 6, spawn_cd := 19, game_over := false, go_timer := 0, tick := 1500, dash_off := (441 : Rat)/10, hand_x := none, particles := [] }
def c3s16 : GameState := { car_lane := 1, car_x := 373, car_y := 492, score := 24, lives := 3, enemies := [{ cx := 186, y := 421, pal := ((220, 50, 50), 140, 20, 20) }, { cx := 186, y := 72, pal := ((220, 50, 50), 140, 20, 20) }], enemy_spd := (13 : Rat)/2, spawn_cd := 35, game_over := false, go_timer := 0, tick := 1600, dash_off := (308 : Rat)/5, hand_x := none, particles := [] }
def c3s17 : GameState := { car_lane := 1, car_x := 373, car_y := 492, score := 26, lives := 3, enemies := [{ cx := 186, y := 345, pal := ((220, 50, 50), 140, 20, 20) }, { cx := 186, y := (-51 : Rat)/2, pal := ((220, 50, 50), 140, 20, 20) }], enemy_spd := (13 : Rat)/2, spawn_cd := 49, game_over := false, go_timer := 0, tick := 1700, dash_off := (158 : Rat)/5, hand_x := none, particles := [] }
def c3s18 : GameState := { car_lane := 1, car_x := 373, car_y := 492, score := 28, lives := 3, enemies := [{ cx := 186, y := 254, pal := ((220, 50, 50), 140, 20, 20) }], enemy_spd := (13 : Rat)/2, spawn_cd := 6, game_over := false, go_timer := 0, tick := 1800, dash_off := (8 : Rat)/5, hand_x := none, particles := [] }
def c3s19 : GameState := { car_lane := 1, car_x := 373, car_y := 492, score := 29, lives := 3, enemies := [{ cx := 186, y := (1067 : Rat)/2, pal := ((220, 50, 50), 140, 20, 20) }, { cx := 186, y := 163, pal := ((220, 50, 50), 140, 20, 20) }], enemy_spd := (13 : Rat)/2, spawn_cd := 20, game_over := false, go_timer := 0, tick := 1900, dash_off := (208 : Rat)/5, hand_x := none, particles := [] }
def c3s20 : GameState := { car_lane := 1, car_x := 373, car_y := 492, score := 31, lives := 3, enemies := [{ cx := 186, y := (885 : Rat)/2, pal := ((220, 50, 50), 140, 20, 20) }, { cx := 186, y := (157 : Rat)/2, pal := ((220, 50, 50), 140, 20, 20) }], enemy_spd := (13 : Rat)/2, spawn_cd := 32, game_over := false, go_timer := 0, tick := 2000, dash_off := (58 : Rat)/5, hand_x := none, particles := [] }
def c3s21 : GameState := { car_lane := 1, car_x := 373, car_y := 492, score := 33, lives := 3, enemies := [{ cx := 186, y := 399, pal := ((220, 50, 50), 140, 20, 20) }, { cx := 186, y := 7, pal := ((220, 50, 50), 140, 20, 20) }], enemy_spd := 7, spawn_cd := 44, game_over := false, go_timer := 0, tick := 2100, dash_off := (41 : Rat)/10, hand_x := none, particles := [] }
def c3s22 : GameState := { car_lane := 1, car_x := 373, car_y := 492, score := 35, lives := 3, enemies := [{ cx := 186, y := 315, pal := ((220, 50, 50), 140, 20, 20) }, { cx := 186, y := -77, pal := ((220, 50, 50), 140, 20, 20) }], enemy_spd := 7, spawn_cd := 55, game_over := false, go_timer := 0, tick := 2200, dash_off := (41 : Rat)/10, hand_x := none, particles := [] }
def c3s23 : GameState := { car_lane := 1, car_x := 373, car_y := 492, score := 37, lives := 3, enemies := [{ cx := 186, y := 238, pal := ((220, 50, 50), 140, 20, 20) }], enemy_spd := 7, spawn_cd := 10, game_over := false, go_timer := 0, tick := 2300, dash_off := (41 : Rat)/10, hand_x := none, particles := [] }
def c3s24 : GameState := { car_lane := 1, car_x := 373, car_y := 492, score := 38, lives := 3, enemies := [{ cx := 186, y := 553, pal := ((220, 50, 50), 140, 20, 20) }, { cx := 186, y := 168, pal := ((220, 50, 50), 140, 20, 20) }], enemy_spd := 7, spawn_cd := 20, game_over := false, go_timer := 0, tick := 2400, dash_off := (41 : Rat)/10, hand_x := none, particles := [] }
def c3s25 : GameState := { car_lane := 1, car_x := 373, car_y := 492, score := 40, lives := 3, enemies := [{ cx := 186, y := (1005 : Rat)/2, pal := ((220, 50, 50), 140, 20, 20) }, { cx := 186, y := 111, pal := ((220, 50, 50), 140, 20, 20) }], enemy_spd := (15 : Rat)/2, spawn_cd := 29, game_over := false, go_timer := 0, tick := 2500, dash_off := (31 : Rat)/2, hand_x := none, particles := [] }
def c3s26 : GameState := { car_lane := 1, car_x := 373, car_y := 492, score := 42, lives := 3, enemies := [{ cx := 186, y := 456, pal := ((220, 50, 50), 140, 20, 20) }, { cx := 186, y := 51, pal := ((220, 50, 50), 140, 20, 20) }], enemy_spd := (15 : Rat)/2, spawn_cd := 37, game_over := false, go_timer := 0, tick := 2600, dash_off := (91 : Rat)/2, hand_x := none, particles := [] }
def c3s27 : GameState := { car_lane := 1, car_x := 373, car_y := 492, score := 44, lives := 3, enemies := [{ cx := 186, y := 396, pal := ((220, 50, 50), 140, 20, 20) }, { cx := 186, y := -9, pal := ((220, 50, 50), 140, 20, 20) }], enemy_spd := (15 : Rat)/2, spawn_cd := 45, game_over := false, go_timer := 0, tick := 2700, dash_off := (11 : Rat)/2, hand_x := none, particles := [] }
def c3s28 : GameState := { car_lane := 1, car_x := 373, car_y := 492, score := 46, lives := 3, enemies := [{ cx := 186, y := 336, pal := ((220, 50, 50), 140, 20, 20) }, { cx := 186, y := (-123 : Rat)/2, pal := ((220, 50, 50), 140, 20, 20) }], enemy_spd := (15 : Rat)/2, spawn_cd := 51, game_over := false, go_timer := 0, tick := 2800, dash_off := (71 : Rat)/2, hand_x := none, particles := [] }
def c3s29 : GameState := { car_lane := 1, car_x := 373, car_y := 492, score := 48, lives := 3, enemies := [{ cx := 186, y := 297, pal := ((220, 50, 50), 140, 20, 20) }], enemy_spd := 8, spawn_cd := 4, game_over := false, go_timer := 0, tick := 2900, dash_off := (344 : Rat)/5, hand_x := none, particles := [] }
def c3s30 : GameState := { car_lane := 1, car_x := 373, car_y := 492, score := 50, lives := 3, enemies := [{ cx := 186, y := 268, pal := ((220, 50, 50), 140, 20, 20) }], enemy_spd := 8, spawn_cd := 10, game_over := false, go_timer := 0, tick := 3000, dash_off := (294 : Rat)/5, hand_x := none, particles := [] }
def c3s31 : GameState := { car_lane := 1, car_x := 373, car_y := 492, score := 52, lives := 3, enemies := [{ cx := 186, y := 228, pal := ((220, 50, 50), 140, 20, 20) }], enemy_spd := 8, spawn_cd := 14, game_over := false, go_timer := 0, tick := 3100, dash_off := (244 : Rat)/5, hand_x := none, particles := [] }
def c3s32 : GameState := { car_lane := 1, car_x := 373, car_y := 492, score := 54, lives := 3, enemies := [{ cx := 186, y := 196, pal := ((220, 50, 50), 140, 20, 20) }], enemy_spd := 8, spawn_cd := 18, game_over := false, go_timer := 0, tick := 3200, dash_off := (194 : Rat)/5, hand_x := none, particles := [] }
def c3s33 : GameState := { car_lane := 1, car_x := 373, car_y := 492, score := 55, lives := 3, enemies := [{ cx := 186, y := 580, pal := ((220, 50, 50), 140, 20, 20) }, { cx := 186, y := 164, pal := ((220, 50, 50), 140, 20, 20) }], enemy_spd := 8, spawn_cd := 21, game_over := false, go_timer := 0, tick := 3300, dash_off := (144 : Rat)/5, hand_x := none, particles := [] }
def c3s34 : GameState := { car_lane := 1, car_x := 373, car_y := 492, score := 57, lives := 3, enemies := [{ cx := 186, y := 596, pal := ((220, 50, 50), 140, 20, 20) }, { cx := 186, y := (325 : Rat)/2, pal := ((220, 50, 50), 140, 20, 20) }], enemy_spd := (17 : Rat)/2, spawn_cd := 23, game_over := false, go_timer := 0, tick := 3400, dash_off := (479 : Rat)/10, hand_x := none, particles := [] }
def c3s35 : GameState := { car_lane := 1, car_x := 373, car_y := 492, score := 59, lives := 3, enemies := [{ cx := 186, y := 579, pal := ((220, 50, 50), 140, 20, 20) }, { cx := 186, y := (291 : Rat)/2, pal := ((220, 50, 50), 140, 20, 20) }], enemy_spd := (17 : Rat)/2, spawn_cd := 25, game_over := false, go_timer := 0, tick := 3500, dash_off := (679 : Rat)/10, hand_x := none, particles := [] }
def c3s36 : GameState := { car_lane := 1, car_x := 373, car_y := 492, score := 61, lives := 3, enemies := [{ cx := 186, y := 562, pal := ((220, 50, 50), 140, 20, 20) }, { cx := 186, y := 137, pal := ((220, 50, 50), 140, 20, 20) }], enemy_spd := (17 : Rat)/2, spawn_cd := 25, game_over := false, go_timer := 0, tick := 3600, dash_off := (179 : Rat)/10, hand_x := none, particles := [] }
def c3s37 : GameState := { car_lane := 1, car_x := 373, car_y := 492, score := 63, lives := 3, enemies := [{ cx := 186, y := 562, pal := ((220, 50, 50), 140, 20, 20) }, { cx := 186, y := 137, pal := ((220, 50, 50), 140, 20, 20) }], enemy_spd := (17 : Rat)/2, spawn_cd := 25, game_over := false, go_timer := 0, tick := 3700, dash_off := (379 : Rat)/10, hand_x := none, particles := [] }
def c3s38 : GameState := { car_lane := 1, car_x := 373, car_y := 492, score := 65, lives := 3, enemies := [{ cx := 186, y := 600, pal := ((220, 50, 50), 140, 20, 20) }, { cx := 186, y := 150, pal := ((220, 50, 50), 140, 20, 20) }], enemy_spd := 9, spawn_cd := 24, game_over := false, go_timer := 0, tick := 3800, dash_off := (82 : Rat)/5, hand_x := none, particles := [] }
def c3s39 : GameState := { car_lane := 1, car_x := 373, car_y := 492, score := 68, lives := 3, enemies := [{ cx := 186, y := 168, pal := ((220, 50, 50), 140, 20, 20) }], enemy_spd := 9, spawn_cd := 22, game_over := false, go_timer := 0, tick := 3900, dash_off := (332 : Rat)/5, hand_x := none, particles := [] }
def c3s40 : GameState := { car_lane := 1, car_x := 373, car_y := 492, score := 70, lives := 3, enemies := [{ cx := 186, y := 186, pal := ((220, 50, 50), 140, 20, 20) }], enemy_spd := 9, spawn_cd := 20, game_over := false, go_timer := 0, tick := 4000, dash_off := (232 : Rat)/5, hand_x := none, particles := [] }
def c3s41 : GameState := { car_lane := 1, car_x := 373, car_y := 492, score := 72, lives := 3, enemies := [{ cx := 186, y := (431 : Rat)/2, pal := ((220, 50, 50), 140, 20, 20) }], enemy_spd := (19 : Rat)/2, spawn_cd := 16, game_over := false, go_timer := 0, tick := 4100, dash_off := (138 : Rat)/5, hand_x := none, particles := [] }
def c3s42 : GameState := { car_lane := 1, car_x := 373, car_y := 492, score := 74, lives := 3, enemies := [{ cx := 186, y := (535 : Rat)/2, pal := ((220, 50, 50), 140, 20, 20) }], enemy_spd := (19 : Rat)/2, spawn_cd := 12, game_over := false, go_timer := 0, tick := 4200, dash_off := (188 : Rat)/5, hand_x := none, particles := [] }
def c3s43 : GameState := { car_lane := 1, car_x := 373, car_y := 492, score := 76, lives := 3, enemies := [{ cx := 186, y := (611 : Rat)/2, pal := ((220, 50, 50), 140, 20, 20) }], enemy_spd := (19 : Rat)/2, spawn_cd := 7, game_over := false, go_timer := 0, tick := 4300, dash_off := (238 : Rat)/5, hand_x := none, particles := [] }
def c3s44 : GameState := { car_lane := 1, car_x := 373, car_y := 492, score := 78, lives := 3, enemies := [{ cx := 186, y := (725 : Rat)/2, pal := ((220, 50, 50), 140, 20, 20) }], enemy_spd := (19 : Rat)/2, spawn_cd := 1, game_over := false, go_timer := 0, tick := 4400, dash_off := (288 : Rat)/5, hand_x := none, particles := [] }
def c3s45 : GameState := { car_lane := 1, car_x := 373, car_y := 492, score := 80, lives := 3, enemies := [{ cx := 186, y := (867 : Rat)/2, pal := ((220, 50, 50), 140, 20, 20) }, { cx := 186, y := -24, pal := ((220, 50, 50), 140, 20, 20) }], enemy_spd := 10, spawn_cd := 41, game_over := false, go_timer := 0, tick := 4500, dash_off := (57 : Rat)/10, hand_x := none, particles := [] }
def c3s46 : GameState := { car_lane := 1, car_x := 373, car_y := 492, score := 82, lives := 3, enemies := [{ cx := 186, y := 516, pal := ((220, 50, 50), 140, 20, 20) }, { cx := 186, y := 56, pal := ((220, 50, 50), 140, 20, 20) }], enemy_spd := 10, spawn_cd := 33, game_over := false, go_timer := 0, tick := 4600, dash_off := (457 : Rat)/10, hand_x := none, particles := [] }
def c3s47 : GameState := { car_lane := 1, car_x := 373, car_y := 492, score := 84, lives := 3, enemies := [{ cx := 186, y := 596, pal := ((220, 50, 50), 140, 20, 20) }, { cx := 186, y := 136, pal := ((220, 50, 50), 140, 20, 20) }], enemy_spd := 10, spawn_cd := 25, game_over := false, go_timer := 0, tick := 4700, dash_off := (157 : Rat)/10, hand_x := none, particles := [] }
def c3s48 : GameState := { car_lane := 1, car_x := 373, car_y := 492, score := 87, lives := 3, enemies := [{ cx := 186, y := 226, pal := ((220, 50, 50), 140, 20, 20) }], enemy_spd := 10, spawn_cd := 15, game_over := false, go_timer := 0, tick := 4800, dash_off := (557 : Rat)/10, hand_x := none, particles := [] }
def c3s49 : GameState := { car_lane := 1, car_x := 373, car_y := 492, score := 89, lives := 3, enemies := [{ cx := 186, y := (693 : Rat)/2, pal := ((220, 50, 50), 140, 20, 20) }], enemy_spd := (21 : Rat)/2, spawn_cd := 5, game_over := false, go_timer := 0, tick := 4900, dash_off := (443 : Rat)/10, hand_x := none, particles := [] }
def c3s50 : GameState := { car_lane := 1, car_x := 373, car_y := 492, score := 91, lives := 3, enemies := [{ cx := 186, y := (903 : Rat)/2, pal := ((220, 50, 50), 140, 20, 20) }, { cx := 186, y := (-21 : Rat)/2, pal := ((220, 50, 50), 140, 20, 20) }], enemy_spd := (21 : Rat)/2, spawn_cd := 38, game_over := false, go_timer := 0, tick := 5000, dash_off := (443 : Rat)/10, hand_x := none, particles := [] }
def c3s51 : GameState := { car_lane := 1, car_x := 373, car_y := 492, score := 93, lives := 3, enemies := [{ cx := 186, y := (1155 : Rat)/2, pal := ((220, 50, 50), 140, 20, 20) }, { cx := 186, y := (231 : Rat)/2, pal := ((220, 50, 50), 140, 20, 20) }], enemy_spd := (21 : Rat)/2, spawn_cd := 26, game_over := false, go_timer := 0, tick := 5100, dash_off := (443 : Rat)/10, hand_x := none, particles := [] }
def c3s52 : GameState := { car_lane := 1, car_x := 373, car_y := 492, score := 96, lives := 3, enemies := [{ cx := 186, y := (493 : Rat)/2, pal := ((220, 50, 50), 140, 20, 20) }], enemy_spd := 11, spawn_cd := 13, game_over := false, go_timer := 0, tick := 5200, dash_off := 47, hand_x := none, particles := [] }
def c3s53 : GameState := { car_lane := 1, car_x := 373, car_y := 492, score := 98, lives := 3, enemies := [{ cx := 186, y := 411, pal := ((220, 50, 50), 140, 20, 20) }, { cx := 186, y := -62, pal := ((220, 50, 50), 140, 20, 20) }], enemy_spd := 11, spawn_cd := 42, game_over := false, go_timer := 0, tick := 5300, dash_off := 7, hand_x := none, particles := [] }
def c3s54 : GameState := { car_lane := 1, car_x := 373, car_y := 492, score := 100, lives := 3, enemies := [{ cx := 186, y := 565, pal := ((220, 50, 50), 140, 20, 20) }, { cx := 186, y := 92, pal := ((220, 50, 50), 140, 20, 20) }], enemy_spd := 11, spawn_cd := 27, game_over := false, go_timer := 0, tick := 5400, dash_off := 37, hand_x := none, particles := [] }
def c3s55 : GameState := { car_lane := 1, car_x := 373, car_y := 492, score := 103, lives := 3, enemies := [{ cx := 186, y := 268, pal := ((220, 50, 50), 140, 20, 20) }], enemy_spd := 11, spawn_cd := 11, game_over := false, go_timer := 0, tick := 5500, dash_off := 67, hand_x := none, particles := [] }
def c3s56 : GameState := { car_lane := 1, car_x := 373, car_y := 492, score := 105, lives := 3, enemies := [{ cx := 186, y := 468, pal := ((220, 50, 50), 140, 20, 20) }, { cx := 186, y := -15, pal := ((220, 50, 50), 140, 20, 20) }], enemy_spd := (23 : Rat)/2, spawn_cd := 36, game_over := false, go_timer := 0, tick := 5600, dash_off := (477 : Rat)/10, hand_x := none, particles := [] }
def c3s57 : GameState := { car_lane := 1, car_x := 373, car_y := 492, score := 108, lives := 3, enemies := [{ cx := 186, y := 192, pal := ((220, 50, 50), 140, 20, 20) }], enemy_spd := (23 : Rat)/2, spawn_cd := 18, game_over := false, go_timer := 0, tick := 5700, dash_off := (377 : Rat)/10, hand_x := none, particles := [] }
def c3s58 : GameState := { car_lane := 1, car_x := 373, car_y := 492, score := 110, lives := 3, enemies := [{ cx := 186, y := 399, pal := ((220, 50, 50), 140, 20, 20) }, { cx := 186, y := (-145 : Rat)/2, pal := ((220, 50, 50), 140, 20, 20) }], enemy_spd := (23 : Rat)/2, spawn_cd := 40, game_over := false, go_timer := 0, tick := 5800, dash_off := (277 : Rat)/10, hand_x := none, particles := [] }
def c3s59 : GameState := { car_lane := 1, car_x := 373, car_y := 492, score := 113, lives := 3, enemies := [{ cx := 186, y := 168, pal := ((220, 50, 50), 140, 20, 20) }], enemy_spd := 12, spawn_cd := 20, game_over := false, go_timer := 0, tick := 5900, dash_off := 30, hand_x := none, particles := [] }
def c3s60 : GameState := { car_lane := 1, car_x := 373, car_y := 492, score := 115, lives := 3, enemies := [{ cx := 186, y := 408, pal := ((220, 50, 50), 140, 20, 20) }, { cx := 186, y := -72, pal := ((220, 50, 50), 140, 20, 20) }], enemy_spd := 12, spawn_cd := 39, game_over := false, go_timer := 0, tick := 6000, dash_off := 50, hand_x := none, particles := [] }
def c3s61 : GameState := { car_lane := 1, car_x := 373, car_y := 492, score := 118, lives := 3, enemies := [{ cx := 186, y := 192, pal := ((220, 50, 50), 140, 20, 20) }], enemy_spd := 12, spawn_cd := 17, game_over := false, go_timer := 0, tick := 6100, dash_off := 0, hand_x := none, particles := [] }
def c3s62 : GameState := { car_lane := 1, car_x := 373, car_y := 492, score := 120, lives := 3, enemies := [{ cx := 186, y := (939 : Rat)/2, pal := ((220, 50, 50), 140, 20, 20) }, { cx := 186, y := -9, pal := ((220, 50, 50), 140, 20, 20) }], enemy_spd := (25 : Rat)/2, spawn_cd := 33, game_over := false, go_timer := 0, tick := 6200, dash_off := (139 : Rat)/5, hand_x := none, particles := [] }
def c3s63 : GameState := { car_lane := 1, car_x := 373, car_y := 492, score := 123, lives := 3, enemies := [{ cx := 186, y := 291, pal := ((220, 50, 50), 140, 20, 20) }], enemy_spd := (25 : Rat)/2, spawn_cd := 9, game_over := false, go_timer := 0, tick := 6300, dash_off := (39 : Rat)/5, hand_x := none, particles := [] }
def c3s64 : GameState := { car_lane := 1, car_x := 373, car_y := 492, score := 125, lives := 3, enemies := [{ cx := 186, y := 591, pal := ((220, 50, 50), 140, 20, 20) }, { cx := 186, y := 116, pal := ((220, 50, 50), 140, 20, 20) }], enemy_spd := (25 : Rat)/2, spawn_cd := 22, game_over := false, go_timer := 0, tick := 6400, dash_off := (289 : Rat)/5, hand_x := none, particles := [] }
def c3s65 : GameState := { car_lane := 1, car_x := 373, car_y := 492, score := 128, lives := 3, enemies := [{ cx := 186, y := (907 : Rat)/2, pal := ((220, 50, 50), 140, 20, 20) }, { cx := 186, y := -19, pal := ((220, 50, 50), 140, 20, 20) }], enemy_spd := 13, spawn_cd := 33, game_over := false, go_timer := 0, tick := 6500, dash_off := 45, hand_x := none, particles := [] }
def c3s66 : GameState := { car_lane := 1, car_x := 373, car_y := 492, score := 131, lives := 3, enemies := [{ cx := 186, y := 319, pal := ((220, 50, 50), 140, 20, 20) }], enemy_spd := 13, spawn_cd := 6, game_over := false, go_timer := 0, tick := 6600, dash_off := 55, hand_x := none, particles := [] }
def c3s67 : GameState := { car_lane := 1, car_x := 373, car_y := 492, score := 134, lives := 3, enemies := [{ cx := 186, y := 215, pal := ((220, 50, 50), 140, 20, 20) }], enemy_spd := 13, spawn_cd := 14, game_over := false, go_timer := 0, tick := 6700, dash_off := 65, hand_x := none, particles := [] }
def c3s68 : GameState := { car_lane := 1, car_x := 373, car_y := 492, score := 136, lives := 3, enemies := [{ cx := 186, y := (1193 : Rat)/2, pal := ((220, 50, 50), 140, 20, 20) }, { cx := 186, y := 132, pal := ((220, 50, 50), 140, 20, 20) }], enemy_spd := (27 : Rat)/2, spawn_cd := 20, game_over := false, go_timer := 0, tick := 6800, dash_off := (76 : Rat)/5, hand_x := none, particles := [] }
def c3s69 : GameState := { car_lane := 1, car_x := 373, car_y := 492, score := 139, lives := 3, enemies := [{ cx := 186, y := 537, pal := ((220, 50, 50), 140, 20, 20) }, { cx := 186, y := (129 : Rat)/2, pal := ((220, 50, 50), 140, 20, 20) }], enemy_spd := (27 : Rat)/2, spawn_cd := 25, game_over := false, go_timer := 0, tick := 6900, dash_off := (276 : Rat)/5, hand_x := none, particles := [] }
def c3s70 : GameState := { car_lane := 1, car_x := 373, car_y := 492, score := 142, lives := 3, enemies := [{ cx := 186, y := 483, pal := ((220, 50, 50), 140, 20, 20) }, { cx := 186, y := 24, pal := ((220, 50, 50), 140, 20, 20) }], enemy_spd := (27 : Rat)/2, spawn_cd := 27, game_over := false, go_timer := 0, tick := 7000, dash_off := (126 : Rat)/5, hand_x := none, particles := [] }
def c3s71 : GameState := { car_lane := 1, car_x := 373, car_y := 492, score := 145, lives := 3, enemies := [{ cx := 186, y := 476, pal := ((220, 50, 50), 140, 20, 20) }, { cx := 186, y := 0, pal := ((220, 50, 50), 140, 20, 20) }], enemy_spd := 14, spawn_cd := 28, game_over := false, go_timer := 0, tick := 7100, dash_off := (123 : Rat)/10, hand_x := none, particles := [] }
def c3s72 : GameState := { car_lane := 1, car_x := 373, car_y := 492, score := 148, lives := 3, enemies := [{ cx := 186, y := 476, pal := ((220, 50, 50), 140, 20, 20) }, { cx := 186, y := 14, pal := ((220, 50, 50), 140, 20, 20) }], enemy_spd := 14, spawn_cd := 27, game_over := false, go_timer := 0, tick := 7200, dash_off := (123 : Rat)/10, hand_x := none, particles := [] }
def c3s73 : GameState := { car_lane := 1, car_x := 373, car_y := 492, score := 151, lives := 3, enemies := [{ cx := 186, y := 490, pal := ((220, 50, 50), 140, 20, 20) }, { cx := 186, y := 42, pal := ((220, 50, 50), 140, 20, 20) }], enemy_spd := 14, spawn_cd := 24, game_over := false, go_timer := 0, tick := 7300, dash_off := (123 : Rat)/10, hand_x := none, particles := [] }
def c3s74 : GameState := { car_lane := 1, car_x := 373, car_y := 492, score := 154, lives := 3, enemies := [{ cx := 186, y := (1137 : Rat)/2, pal := ((220, 50, 50), 140, 20, 20) }, { cx := 186, y := (209 : Rat)/2, pal := ((220, 50, 50), 140, 20, 20) }], enemy_spd := (29 : Rat)/2, spawn_cd := 20, game_over := false, go_timer := 0, tick := 7400, dash_off := (399 : Rat)/10, hand_x := none, particles := [] }
def c3s75 : GameState := { car_lane := 1, car_x := 373, car_y := 492, score := 158, lives := 3, enemies := [{ cx := 186, y := (383 : Rat)/2, pal := ((220, 50, 50), 140, 20, 20) }], enemy_spd := (29 : Rat)/2, spawn_cd := 13, game_over := false, go_timer := 0, tick := 7500, dash_off := (699 : Rat)/10, hand_x := none, particles := [] }
def c3s76 : GameState := { car_lane := 1, car_x := 373, car_y := 492, score := 161, lives := 3, enemies := [{ cx := 186, y := 306, pal := ((220, 50, 50), 140, 20, 20) }], enemy_spd := 15, spawn_cd := 5, game_over := false, go_timer := 0, tick := 7600, dash_off := (419 : Rat)/10, hand_x := none, particles := [] }
def c3s77 : GameState := { car_lane := 1, car_x := 373, car_y := 492, score := 164, lives := 3, enemies := [{ cx := 186, y := 456, pal := ((220, 50, 50), 140, 20, 20) }, { cx := 186, y := 6, pal := ((220, 50, 50), 140, 20, 20) }], enemy_spd := 15, spawn_cd := 25, game_over := false, go_timer := 0, tick := 7700, dash_off := (319 : Rat)/10, hand_x := none, particles := [] }
def c3s78 : GameState := { car_lane := 1, car_x := 373, car_y := 492, score := 168, lives := 3, enemies := [{ cx := 186, y := 187, pal := ((220, 50, 50), 140, 20, 20) }], enemy_spd := (31 : Rat)/2, spawn_cd := 12, game_over := false, go_timer := 0, tick := 7800, dash_off := (111 : Rat)/5, hand_x := none, particles := [] }
def c3s79 : GameState := { car_lane := 1, car_x := 373, car_y := 492, score := 171, lives := 3, enemies := [{ cx := 186, y := (793 : Rat)/2, pal := ((220, 50, 50), 140, 20, 20) }, { cx := 186, y := (-75 : Rat)/2, pal := ((220, 50, 50), 140, 20, 20) }], enemy_spd := (31 : Rat)/2, spawn_cd := 26, game_over := false, go_timer := 0, tick := 7900, dash_off := (211 : Rat)/5, hand_x := none, particles := [] }
def c3s80 : GameState := { car_lane := 1, car_x := 373, car_y := 492, score := 175, lives := 3, enemies := [{ cx := 186, y := (421 : Rat)/2, pal := ((220, 50, 50), 140, 20, 20) }], enemy_spd := (31 : Rat)/2, spawn_cd := 10, game_over := false, go_timer := 0, tick := 8000, dash_off := (311 : Rat)/5, hand_x := none, particles := [] }
def c3s81 : GameState := { car_lane := 1, car_x := 373, car_y := 492, score := 178, lives := 3, enemies := [{ cx := 186, y := 508, pal := ((220, 50, 50), 140, 20, 20) }, { cx := 186, y := 76, pal := ((220, 50, 50), 140, 20, 20) }], enemy_spd := 16, spawn_cd := 18, game_over := false, go_timer := 0, tick := 8100, dash_off := (172 : Rat)/5, hand_x := none, particles := [] }
def c3s82 : GameState := { car_lane := 1, car_x := 373, car_y := 492, score := 182, lives := 3, enemies := [{ cx := 186, y := 396, pal := ((220, 50, 50), 140, 20, 20) }, { cx := 186, y := -20, pal := ((220, 50, 50), 140, 20, 20) }], enemy_spd := 16, spawn_cd := 23, game_over := false, go_timer := 0, tick := 8200, dash_off := (72 : Rat)/5, hand_x := none, particles := [] }
def c3s83 : GameState := { car_lane := 1, car_x := 373, car_y := 492, score := 186, lives := 3, enemies := [{ cx := 186, y := 345, pal := ((220, 50, 50), 140, 20, 20) }, { cx := 186, y := (-135 : Rat)/2, pal := ((220, 50, 50), 140, 20, 20) }], enemy_spd := (33 : Rat)/2, spawn_cd := 25, game_over := false, go_timer := 0, tick := 8300, dash_off := (127 : Rat)/10, hand_x := none, particles := [] }
def c3s84 : GameState := { car_lane := 1, car_x := 373, car_y := 492, score := 190, lives := 3, enemies := [{ cx := 186, y := 345, pal := ((220, 50, 50), 140, 20, 20) }, { cx := 186, y := (-135 : Rat)/2, pal := ((220, 50, 50), 140, 20, 20) }], enemy_spd := (33 : Rat)/2, spawn_cd := 24, game_over := false, go_timer := 0, tick := 8400, dash_off := (227 : Rat)/10, hand_x := none, particles := [] }
def c3s85 : GameState := { car_lane := 1, car_x := 373, car_y := 492, score := 194, lives := 3, enemies := [{ cx := 186, y := 409, pal := ((220, 50, 50), 140, 20, 20) }, { cx := 186, y := 1, pal := ((220, 50, 50), 140, 20, 20) }], enemy_spd := 17, spawn_cd := 20, game_over := false, go_timer := 0, tick := 8500, dash_off := (252 : Rat)/5, hand_x := none, particles := [] }
def c3s86 : GameState := { car_lane := 1, car_x := 373, car_y := 492, score := 198, lives := 3, enemies := [{ cx := 186, y := 511, pal := ((220, 50, 50), 140, 20, 20) }, { cx := 186, y := 120, pal := ((220, 50, 50), 140, 20, 20) }], enemy_spd := 17, spawn_cd := 12, game_over := false, go_timer := 0, tick := 8600, dash_off := (102 : Rat)/5, hand_x := none, particles := [] }
def c3s87 : GameState := { car_lane := 1, car_x := 373, car_y := 492, score := 203, lives := 3, enemies := [{ cx := 186, y := 301, pal := ((220, 50, 50), 140, 20, 20) }], enemy_spd := (35 : Rat)/2, spawn_cd := 1, game_over := false, go_timer := 0, tick := 8700, dash_off := (117 : Rat)/10, hand_x := none, particles := [] }
def c3s88 : GameState := { car_lane := 1, car_x := 373, car_y := 492, score := 207, lives := 3, enemies := [{ cx := 186, y := (1057 : Rat)/2, pal := ((220, 50, 50), 140, 20, 20) }, { cx := 186, y := 161, pal := ((220, 50, 50), 140, 20, 20) }], enemy_spd := (35 : Rat)/2, spawn_cd := 8, game_over := false, go_timer := 0, tick := 8800, dash_off := (117 : Rat)/10, hand_x := none, particles := [] }
def c3s89 : GameState := { car_lane := 1, car_x := 373, car_y := 492, score := 212, lives := 3, enemies := [{ cx := 186, y := 474, pal := ((220, 50, 50), 140, 20, 20) }, { cx := 186, y := 114, pal := ((220, 50, 50), 140, 20, 20) }], enemy_spd := 18, spawn_cd := 10, game_over := false, go_timer := 0, tick := 8900, dash_off := (201 : Rat)/5, hand_x := none, particles := [] }
def c3s90 : GameState := { car_lane := 1, car_x := 373, car_y := 492, score := 215, lives := 3, enemies := [{ cx := 186, y := 600, pal := ((220, 50, 50), 140, 20, 20) }, { cx := 186, y := 240, pal := ((220, 50, 50), 140, 20, 20) }], enemy_spd := 18, spawn_cd := 2, game_over := false, go_timer := 0, tick := 8967, dash_off := (319 : Rat)/5, hand_x := none, particles := [] }
def c8s1 : GameState := { car_lane := 1, car_x := 373, car_y := 492, score := 0, lives := 3, enemies := [{ cx := 399, y := 71, pal := ((220, 50, 50), 140, 20, 20) }], enemy_spd := 5, spawn_cd := 40, game_over := false, go_timer := 0, tick := 100, dash_off := 20, hand_x := none, particles := [] }
def c8s2 : GameState := { car_lane := 1, car_x := 373, car_y := 492, score := 0, lives := 2, enemies := [{ cx := 399, y := 221, pal := ((220, 50, 50), 140, 20, 20) }], enemy_spd := 5, spawn_cd := 10, game_over := false, go_timer := 0, tick := 200, dash_off := 40, hand_x := none, particles := [] }
def c8s3 : GameState := { car_lane := 1, car_x := 373, car_y := 492, score := 0, lives := 1, enemies := [{ cx := 399, y := 371, pal := ((220, 50, 50), 140, 20, 20) }, { cx := 399, y := 21, pal := ((220, 50, 50), 140, 20, 20) }], enemy_spd := 5, spawn_cd := 50, game_over := false, go_timer := 0, tick := 300, dash_off := 60, hand_x := none, particles := [] }
def c8s4 : GameState := { car_lane := 1, car_x := 373, car_y := 492, score := 0, lives := 0, enemies := [{ cx := 399, y := 61, pal := ((220, 50, 50), 140, 20, 20) }], enemy_spd := 5, spawn_cd := 42, game_over := true, go_timer := 28, tick := 400, dash_off := 10, hand_x := none, particles := [] }
def c8s5 : GameState := { car_lane := 1, car_x := 373, car_y := 492, score := 0, lives := 0, enemies := [{ cx := 399, y := 61, pal := ((220, 50, 50), 140, 20, 20) }], enemy_spd := 5, spawn_cd := 42, game_over := true, go_timer := 0, tick := 428, dash_off := 24, hand_x := none, particles := [] }

/-- The 8967-tick input trace behind the C3 counterexample. -/
def c3inputs : List Input := List.replicate 100 inpNone ++ (List.replicate 100 inpNone ++ (List.replicate 100 inpNone ++ (List.replicate 100 inpNone ++ (List.replicate 100 inpNone ++ (List.replicate 100 inpNone ++ (List.replicate 100 inpNone ++ (List.replicate 100 inpNone ++ (List.replicate 100 inpNone ++ (List.replicate 100 inpNone ++ (List.replicate 100 inpNone ++ (List.replicate 100 inpNone ++ (List.replicate 100 inpNone ++ (List.replicate 100 inpNone ++ (List.replicate 100 inpNone ++ (List.replicate 100 inpNone ++ (List.replicate 100 inpNone ++ (List.replicate 100 inpNone ++ (List.replicate 100 inpNone ++ (List.replicate 100 inpNone ++ (List.replicate 100 inpNone ++ (List.replicate 100 inpNone ++ (List.replicate 100 inpNone ++ (List.replicate 100 inpNone ++ (List.replicate 100 inpNone ++ (List.replicate 100 inpNone ++ (List.replicate 100 inpNone ++ (List.replicate 100 inpNone ++ (List.replicate 100 inpNone ++ (List.replicate 100 inpNone ++ (List.replicate 100 inpNone ++ (List.replicate 100 inpNone ++ (List.replicate 100 inpNone ++ (List.replicate 100 inpNone ++ (List.replicate 100 inpNone ++ (List.replicate 100 inpNone ++ (List.replicate 100 inpNone ++ (List.replicate 100 inpNone ++ (List.replicate 100 inpNone ++ (List.replicate 100 inpNone ++ (List.replicate 100 inpNone ++ (List.replicate 100 inpNone ++ (List.replicate 100 inpNone ++ (List.replicate 100 inpNone ++ (List.replicate 100 inpNone ++ (List.replicate 100 inpNone ++ (List.replicate 100 inpNone ++ (List.replicate 100 inpNone ++ (List.replicate 100 inpNone ++ (List.replicate 100 inpNone ++ (List.replicate 100 inpNone ++ (List.replicate 100 inpNone ++ (List.replicate 100 inpNone ++ (List.replicate 100 inpNone ++ (List.replicate 100 inpNone ++ (List.replicate 100 inpNone ++ (List.replicate 100 inpNone ++ (List.replicate 100 inpNone ++ (List.replicate 100 inpNone ++ (List.replicate 100 inpNone ++ (List.replicate 100 inpNone ++ (List.replicate 100 inpNone ++ (List.replicate 100 inpNone ++ (List.replicate 100 inpNone ++ (List.replicate 100 inpNone ++ (List.replicate 100 inpNone ++ (List.replicate 100 inpNone ++ (List.replicate 100 inpNone ++ (List.replicate 100 inpNone ++ (List.replicate 100 inpNone ++ (List.replicate 100 inpNone ++ (List.replicate 100 inpNone ++ (List.replicate 100 inpNone ++ (List.replicate 100 inpNone ++ (List.replicate 100 inpNone ++ (List.replicate 100 inpNone ++ (List.replicate 100 inpNone ++ (List.replicate 100 inpNone ++ (List.replicate 100 inpNone ++ (List.replicate 100 inpNone ++ (List.replicate 100 inpNone ++ (List.replicate 100 inpNone ++ (List.replicate 100 inpNone ++ (List.replicate 100 inpNone ++ (List.replicate 100 inpNone ++ (List.replicate 100 inpNone ++ (List.replicate 100 inpNone ++ (List.replicate 100 inpNone ++ (List.replicate 100 inpNone ++ (List.replicate 67 inpNone)))))))))))))))))))))))))))))))))))))))))))))))))))))))))))))))))))))))))))))))))))))))))

/-- The 428-tick input trace behind the C8 counterexample. -/
def c8inputs : List Input := List.replicate 100 inpC8 ++ (List.replicate 100 inpC8 ++ (List.replicate 100 inpC8 ++ (List.replicate 100 inpC8 ++ (List.replicate 28 inpC8))))


-- ── Basic bookkeeping lemmas ──────────────────────────────────────────────

lemma preUpdate_game_over (s : GameState) (inp : Input) :
    (preUpdate s inp).game_over = s.game_over := rfl

lemma preUpdate_score (s : GameState) (inp : Input) :
    (preUpdate s inp).score = s.score := rfl

lemma preUpdate_lives (s : GameState) (inp : Input) :
    (preUpdate s inp).lives = s.lives := rfl

lemma preUpdate_enemies (s : GameState) (inp : Input) :
    (preUpdate s inp).enemies = s.enemies := rfl

lemma preUpdate_spd (s : GameState) (inp : Input) :
    (preUpdate s inp).enemy_spd = s.enemy_spd := rfl

lemma preUpdate_spawn_cd (s : GameState) (inp : Input) :
    (preUpdate s inp).spawn_cd = s.spawn_cd := rfl

lemma preUpdate_go_timer (s : GameState) (inp : Input) :
    (preUpdate s inp).go_timer = s.go_timer := rfl

lemma preUpdate_car_x (s : GameState) (inp : Input) :
    (preUpdate s inp).car_x = s.car_x := rfl

lemma preUpdate_car_y (s : GameState) (inp : Input) :
    (preUpdate s inp).car_y = s.car_y := rfl

lemma preUpdate_particles (s : GameState) (inp : Input) :
    (preUpdate s inp).particles = s.particles := rfl

lemma particlePhase_resetState : particlePhase resetState = resetState := rfl

lemma run_append (s : GameState) (l₁ l₂ : List Input) :
    run s (l₁ ++ l₂) = run (run s l₁) l₂ := by
  induction l₁ generalizing s with
  | nil => rfl
  | cons i l ih => simpa [run] using ih (step s i)

/-- When the game is over, one `step` is the game-over block followed by the
particle block. -/
lemma step_of_game_over (s : GameState) (inp : Input) (h : s.game_over = true) :
    step s inp = particlePhase (goStep (preUpdate s inp)) := by
  unfold step
  rw [preUpdate_game_over, h]
  simp

/-- When the game is running, one `step` is the Playing block followed by the
particle block. -/
lemma step_of_playing (s : GameState) (inp : Input) (h : s.game_over = false) :
    step s inp = particlePhase (playStep (preUpdate s inp) inp) := by
  unfold step
  rw [preUpdate_game_over, h]
  simp

-- ── C2: collision has priority over the off-screen scoring exit ───────────

/-- Claim C2: an obstacle that, on the tick it is processed, both overlaps the
player's axis-aligned bounding box and has its top y beyond the visible height
is resolved as a collision — an explosion of 40 particles is spawned, a life
is lost, and the obstacle is marked removed — and not as a scoring exit: the
score is unchanged for that obstacle. -/
theorem c2_collision_priority_over_exit (car : Rect) (sd : ℕ → ℕ → PSeed) (i : ℕ)
    (a : LoopAcc) (e : Enemy)
    (hcol : colliderect car (enemyRect e.cx (e.y + a.spd)) = true)
    (_hoff : ((WIN_H : ℤ) : ℚ) < e.y + a.spd) :
    (processEnemy car sd i a e).score = a.score ∧
    (processEnemy car sd i a e).lives = a.lives - 1 ∧
    (processEnemy car sd i a e).particles =
      explode a.particles ((e.cx : ℤ) : ℚ)
        ((pyint (e.y + a.spd + ((ENEMY_H / 2 : ℤ) : ℚ)) : ℤ) : ℚ) e.pal (sd i) ∧
    (processEnemy car sd i a e).particles.length = a.particles.length + 40 ∧
    (processEnemy car sd i a e).out = a.out ++ [({ e with y := e.y + a.spd }, Outcome.hit)] ∧
    keptOf (processEnemy car sd i a e).out = keptOf a.out := by
  have hp : processEnemy car sd i a e =
      { a with
        lives := a.lives - 1
        particles := explode a.particles ((e.cx : ℤ) : ℚ)
          ((pyint (e.y + a.spd + ((ENEMY_H / 2 : ℤ) : ℚ)) : ℤ) : ℚ) e.pal (sd i)
        game_over := if a.lives - 1 ≤ 0 then true else a.game_over
        go_timer := if a.lives - 1 ≤ 0 then FPS * 2 else a.go_timer
        out := a.out ++ [({ e with y := e.y + a.spd }, Outcome.hit)] } := by
    simp [processEnemy, hcol]
  refine ⟨by rw [hp], by rw [hp], by rw [hp], ?_, by rw [hp], ?_⟩
  · rw [hp]
    simp [explode]
  · rw [hp]
    simp [keptOf]

/-- Witness for C2 at a concrete overlapping, already-exited obstacle. -/
theorem c2_collision_priority_over_exit_witness :
    (processEnemy ⟨100, 550, 52, 84⟩ (fun _ _ => default) 0
        ⟨5, 7, 3, false, 0, [], []⟩ ⟨126, 596, ((220, 50, 50), (140, 20, 20))⟩).score = 7 ∧
    (processEnemy ⟨100, 550, 52, 84⟩ (fun _ _ => default) 0
        ⟨5, 7, 3, false, 0, [], []⟩ ⟨126, 596, ((220, 50, 50), (140, 20, 20))⟩).lives = 3 - 1 ∧
    (processEnemy ⟨100, 550, 52, 84⟩ (fun _ _ => default) 0
        ⟨5, 7, 3, false, 0, [], []⟩ ⟨126, 596, ((220, 50, 50), (140, 20, 20))⟩).particles =
      explode [] ((126 : ℤ) : ℚ)
        ((pyint ((596 : ℚ) + 5 + ((ENEMY_H / 2 : ℤ) : ℚ)) : ℤ) : ℚ)
        ((220, 50, 50), (140, 20, 20)) ((fun _ _ => default) 0) ∧
    (processEnemy ⟨100, 550, 52, 84⟩ (fun _ _ => default) 0
        ⟨5, 7, 3, false, 0, [], []⟩ ⟨126, 596, ((220, 50, 50), (140, 20, 20))⟩).particles.length =
      List.length ([] : List Particle) + 40 ∧
    (processEnemy ⟨100, 550, 52, 84⟩ (fun _ _ => default) 0
        ⟨5, 7, 3, false, 0, [], []⟩ ⟨126, 596, ((220, 50, 50), (140, 20, 20))⟩).out =
      [] ++ [(⟨126, (596 : ℚ) + 5, ((220, 50, 50), (140, 20, 20))⟩, Outcome.hit)] ∧
    keptOf (processEnemy ⟨100, 550, 52, 84⟩ (fun _ _ => default) 0
        ⟨5, 7, 3, false, 0, [], []⟩ ⟨126, 596, ((220, 50, 50), (140, 20, 20))⟩).out = keptOf [] :=
  c2_collision_priority_over_exit ⟨100, 550, 52, 84⟩ (fun _ _ => default) 0
    ⟨5, 7, 3, false, 0, [], []⟩ ⟨126, 596, ((220, 50, 50), (140, 20, 20))⟩
    (by decide) (by decide)

-- ── C4: restart resets the whole session ──────────────────────────────────

/-- Claim C4: in GameOver with the cooldown spent, a present input lane signal
makes the next tick a full reset: the step returns exactly the freshly reset
state — score 0, lives 3, no obstacles, no particles, speed and spawn
countdown at their initial values, scroll offset 0, player at the lane-1
center. -/
theorem c4_restart_full_reset (s : GameState) (inp : Input)
    (hgo : s.game_over = true) (ht : s.go_timer = 0)
    (hh : (preUpdate s inp).hand_x ≠ none) :
    step s inp = resetState := by
  rw [step_of_game_over s inp hgo]
  unfold goStep
  rw [preUpdate_go_timer, ht]
  simp only [lt_irrefl, if_false]
  rw [if_pos hh]
  exact particlePhase_resetState

/-- Witness for C4 at a concrete game-over state with a visible hand. -/
theorem c4_restart_full_reset_witness :
    step { resetState with game_over := true, lives := 0, score := 9, hand_x := some 5 }
      inpNone = resetState :=
  c4_restart_full_reset _ _ rfl rfl (by decide)

-- ── C5: cooldown ticks only decrement the timer ───────────────────────────

/-- Claim C5: on any tick that starts in GameOver with a positive cooldown,
the cooldown decreases by exactly 1 whatever the input is, no restart
happens — score, lives, obstacles, speed and spawn countdown are untouched
and the game stays over. -/
theorem c5_cooldown_decrements (s : GameState) (inp : Input)
    (hgo : s.game_over = true) (ht : 0 < s.go_timer) :
    (step s inp).go_timer = s.go_timer - 1 ∧
    (step s inp).score = s.score ∧
    (step s inp).lives = s.lives ∧
    (step s inp).enemies = s.enemies ∧
    (step s inp).enemy_spd = s.enemy_spd ∧
    (step s inp).spawn_cd = s.spawn_cd ∧
    (step s inp).game_over = true := by
  rw [step_of_game_over s inp hgo]
  unfold goStep
  rw [preUpdate_go_timer, if_pos ht]
  exact ⟨rfl, rfl, rfl, rfl, rfl, rfl, hgo⟩

/-- Witness for C5 at a concrete cooling-down game-over state. -/
theorem c5_cooldown_decrements_witness :
    (step { resetState with game_over := true, lives := 0, go_timer := 120 }
        inpHand).go_timer = 120 - 1 ∧
    (step { resetState with game_over := true, lives := 0, go_timer := 120 }
        inpHand).score = 0 ∧
    (step { resetState with game_over := true, lives := 0, go_timer := 120 }
        inpHand).lives = 0 ∧
    (step { resetState with game_over := true, lives := 0, go_timer := 120 }
        inpHand).enemies = resetState.enemies ∧
    (step { resetState with game_over := true, lives := 0, go_timer := 120 }
        inpHand).enemy_spd = resetState.enemy_spd ∧
    (step { resetState with game_over := true, lives := 0, go_timer := 120 }
        inpHand).spawn_cd = resetState.spawn_cd ∧
    (step { resetState with game_over := true, lives := 0, go_timer := 120 }
        inpHand).game_over = true :=
  c5_cooldown_decrements { resetState with game_over := true, lives := 0, go_timer := 120 }
    inpHand rfl (by decide)

-- ── C7: player interpolation toward the lane center ───────────────────────

/-- Claim C7: on a Playing tick the player's x is updated by exactly
`x' = x + (1/4)·(target_x − x)` toward
`target_x = LANE_X[target_lane] − CAR_W//2`; hence for the tick's target the
signed and absolute distances to the target shrink by exactly the factor
`3/4`, and the position moves monotonically toward the target without ever
passing it. -/
theorem c7_lerp_convergence (s : GameState) (inp : Input) (h : s.game_over = false) :
    targetX (preUpdate s inp) inp =
      ((LANE_X.getD (hand_lane (preUpdate s inp).hand_x inp.w) 0 - CAR_W / 2 : ℤ) : ℚ) ∧
    (step s inp).car_x = lerp s.car_x (targetX (preUpdate s inp) inp) (1/4) ∧
    targetX (preUpdate s inp) inp - (step s inp).car_x
      = (3/4) * (targetX (preUpdate s inp) inp - s.car_x) ∧
    |targetX (preUpdate s inp) inp - (step s inp).car_x|
      = (3/4) * |targetX (preUpdate s inp) inp - s.car_x| ∧
    (s.car_x ≤ targetX (preUpdate s inp) inp →
      s.car_x ≤ (step s inp).car_x ∧ (step s inp).car_x ≤ targetX (preUpdate s inp) inp) ∧
    (targetX (preUpdate s inp) inp ≤ s.car_x →
      targetX (preUpdate s inp) inp ≤ (step s inp).car_x ∧ (step s inp).car_x ≤ s.car_x) := by
  have hx : (step s inp).car_x = lerp s.car_x (targetX (preUpdate s inp) inp) (1/4) := by
    rw [step_of_playing s inp h]
    show newCarX (preUpdate s inp) inp = _
    unfold newCarX
    rw [preUpdate_car_x]
  set t := targetX (preUpdate s inp) inp
  have hd : t - (step s inp).car_x = (3/4) * (t - s.car_x) := by
    rw [hx]; unfold lerp; ring
  refine ⟨rfl, hx, hd, ?_, ?_, ?_⟩
  · rw [hd, abs_mul, abs_of_nonneg (by norm_num : (0:ℚ) ≤ 3/4)]
  · intro hle
    constructor <;> nlinarith [hd]
  · intro hle
    constructor <;> nlinarith [hd]

/-- Witness for C7: one Playing step from the initial state. -/
theorem c7_lerp_convergence_witness :
    targetX (preUpdate resetState inpHand)
        inpHand =
      ((LANE_X.getD (hand_lane
          (preUpdate resetState inpHand).hand_x
          640) 0 - CAR_W / 2 : ℤ) : ℚ) ∧
    (step resetState inpHand).car_x =
      lerp resetState.car_x
        (targetX (preUpdate resetState inpHand)
          inpHand) (1/4) ∧
    targetX (preUpdate resetState inpHand)
        inpHand -
      (step resetState inpHand).car_x
      = (3/4) * (targetX (preUpdate resetState inpHand)
          inpHand - resetState.car_x) ∧
    |targetX (preUpdate resetState inpHand)
        inpHand -
      (step resetState inpHand).car_x|
      = (3/4) * |targetX (preUpdate resetState inpHand)
          inpHand - resetState.car_x| ∧
    (resetState.car_x ≤ targetX (preUpdate resetState inpHand)
        inpHand →
      resetState.car_x ≤ (step resetState inpHand).car_x ∧
      (step resetState inpHand).car_x ≤
        targetX (preUpdate resetState inpHand)
          inpHand) ∧
    (targetX (preUpdate resetState inpHand)
        inpHand ≤ resetState.car_x →
      targetX (preUpdate resetState inpHand)
          inpHand ≤
        (step resetState inpHand).car_x ∧
      (step resetState inpHand).car_x ≤
        resetState.car_x) :=
  c7_lerp_convergence resetState inpHand rfl

-- ── C9: explosions make 40 particles that are pruned within 50 ticks ──────

lemma particleTick_length_le (l : List Particle) :
    (particleTick l).length ≤ l.length := by
  calc (particleTick l).length ≤ (l.map Particle.update).length := List.length_filter_le _ _
  _ = l.length := List.length_map _ _

lemma particleTick_kills :
    ∀ (n : ℕ) (l : List Particle), (∀ p ∈ l, p.life ≤ (n : ℤ) + 1) →
      particleTick^[n + 1] l = [] := by
  intro n
  induction n with
  | zero =>
    intro l hl
    rw [Function.iterate_succ_apply, Function.iterate_zero_apply]
    unfold particleTick
    rw [List.filter_eq_nil_iff]
    intro q hq
    obtain ⟨p, hp, rfl⟩ := List.mem_map.1 hq
    have := hl p hp
    simp only [Particle.update, decide_eq_true_eq]
    omega
  | succ n ih =>
    intro l hl
    rw [Function.iterate_succ_apply]
    apply ih
    intro q hq
    unfold particleTick at hq
    obtain ⟨hq1, _⟩ := List.mem_filter.1 hq
    obtain ⟨p, hp, rfl⟩ := List.mem_map.1 hq1
    have := hl p hp
    simp only [Particle.update]
    omega

/-- Claim C9: `explode` appends exactly 40 particles, each created with its
remaining life equal to its max life and in `[25, 50]` ticks; every particle
tick decrements each remaining life by 1 and prunes the non-positive ones, so
any collection of particles whose lives are at most `n + 1` is empty after
`n + 1` particle ticks — in particular an explosion's particles (life `≤ 50`)
are gone within 50 ticks of their creation. -/
theorem c9_explosion_lifecycle :
    (∀ (ps : List Particle) (x y : ℚ) (pal : Palette) (sd : ℕ → PSeed),
      (explode ps x y pal sd).length = ps.length + 40) ∧
    (∀ (ps : List Particle) (x y : ℚ) (pal : Palette) (sd : ℕ → PSeed) (p : Particle),
      p ∈ explode ps x y pal sd →
        p ∈ ps ∨ (p.life = p.maxLife ∧ 25 ≤ p.life ∧ p.life ≤ 50)) ∧
    (∀ p : Particle, (Particle.update p).life = p.life - 1) ∧
    (∀ s : GameState, (particlePhase s).particles = particleTick s.particles) ∧
    (∀ (n : ℕ) (l : List Particle), (∀ p ∈ l, p.life ≤ (n : ℤ) + 1) →
      particleTick^[n + 1] l = []) := by
  refine ⟨?_, ?_, fun _ => rfl, fun _ => rfl, particleTick_kills⟩
  · intro ps x y pal sd
    unfold explode
    rw [List.length_append, List.length_map, List.length_range]
  · intro ps x y pal sd p hp
    unfold explode at hp
    rcases List.mem_append.1 hp with h | h
    · exact Or.inl h
    · right
      obtain ⟨j, _, rfl⟩ := List.mem_map.1 h
      refine ⟨rfl, ?_, ?_⟩ <;> simp only [Particle.make] <;> omega

/-- Witness for C9: a freshly made particle (life 25) is pruned within 50
particle ticks, and a concrete explosion adds exactly 40 particles. -/
theorem c9_explosion_lifecycle_witness :
    (explode [] 0 0 ((220, 50, 50), (140, 20, 20)) (fun _ => default)).length =
      List.length ([] : List Particle) + 40 ∧
    particleTick^[49 + 1] [Particle.make 0 0 (0, 0, 0) default] = [] :=
  ⟨c9_explosion_lifecycle.1 [] 0 0 ((220, 50, 50), (140, 20, 20)) (fun _ => default),
   c9_explosion_lifecycle.2.2.2.2 49 [Particle.make 0 0 (0, 0, 0) default] (by decide)⟩

-- ── Arithmetic support for the session invariant ──────────────────────────

lemma LANE_X_eq : LANE_X = [186, 399, 612] := by decide

lemma ratFloor_eq (q : ℚ) : q.floor = ⌊q⌋ := rfl

lemma pyint_of_nonneg {q : ℚ} (h : 0 ≤ q) : pyint q = ⌊q⌋ := by
  unfold pyint
  rw [if_pos h, ratFloor_eq]

/-- A truncation that is at least 1 forces the rational to be at least that
integer. -/
lemma le_of_le_pyint {q : ℚ} {n : ℤ} (hn : 1 ≤ n) (h : n ≤ pyint q) : (n : ℚ) ≤ q := by
  by_cases h0 : 0 ≤ q
  · rw [pyint_of_nonneg h0] at h
    exact_mod_cast Int.le_floor.1 h
  · exfalso
    unfold pyint at h
    rw [if_neg h0, ratFloor_eq] at h
    have hq : 0 ≤ ⌊-q⌋ := Int.floor_nonneg.2 (by linarith [lt_of_not_ge h0])
    omega

lemma pyint_add_le {a b : ℚ} {k : ℤ} (ha : 0 ≤ a) (hk : 0 ≤ k) (h : a + k ≤ b) :
    pyint a + k ≤ pyint b := by
  have hkq : (0 : ℚ) ≤ (k : ℚ) := by exact_mod_cast hk
  have hb : (0 : ℚ) ≤ b := le_trans (by linarith) h
  rw [pyint_of_nonneg ha, pyint_of_nonneg hb]
  calc ⌊a⌋ + k = ⌊a + k⌋ := (Int.floor_add_int a k).symm
  _ ≤ ⌊b⌋ := Int.floor_mono h

lemma spdOf_le (σ : ℤ) : spdOf σ ≤ 18 := min_le_left _ _

lemma five_le_spdOf {σ : ℤ} (h : 0 ≤ σ) : 5 ≤ spdOf σ := by
  have h8 : (0 : ℤ) ≤ σ / 8 := Int.ediv_nonneg h (by norm_num)
  have : (0 : ℚ) ≤ ((σ / 8 : ℤ) : ℚ) := by exact_mod_cast h8
  unfold spdOf MAX_SPEED
  rw [le_min_iff]
  constructor <;> linarith

lemma spdOf_nonneg {σ : ℤ} (h : 0 ≤ σ) : 0 ≤ spdOf σ := le_trans (by norm_num) (five_le_spdOf h)

lemma spdOf_mono {σ σ' : ℤ} (h : σ ≤ σ') : spdOf σ ≤ spdOf σ' := by
  have h8 : σ / 8 ≤ σ' / 8 := Int.ediv_le_ediv (by norm_num) h
  have : ((σ / 8 : ℤ) : ℚ) ≤ ((σ' / 8 : ℤ) : ℚ) := by exact_mod_cast h8
  unfold spdOf
  apply min_le_min le_rfl
  linarith

lemma min_shift_half (y : ℚ) :
    min (18 : ℚ) (y + 1/2) = min 18 (min 18 y + 1/2) := by
  rcases le_total y 18 with h | h
  · rw [min_eq_right h]
  · rw [min_eq_left h, min_eq_left (by linarith), min_eq_left (by linarith)]

/-- Crossing a multiple of 8 updates `spdOf` by the capped half increment;
anything else leaves it unchanged. -/
lemma spdOf_succ {σ : ℤ} (h : 0 ≤ σ) :
    spdOf (σ + 1) =
      if (σ + 1) % 8 = 0 then min MAX_SPEED (spdOf σ + 1/2) else spdOf σ := by
  by_cases h8 : (σ + 1) % 8 = 0
  · rw [if_pos h8]
    have hdiv : (σ + 1) / 8 = σ / 8 + 1 := by omega
    unfold spdOf MAX_SPEED
    rw [hdiv]
    push_cast
    rw [show (5 : ℚ) + (((σ / 8 : ℤ) : ℚ) + 1) * (1/2) = (5 + ((σ / 8 : ℤ) : ℚ) * (1/2)) + 1/2 by ring]
    exact min_shift_half _
  · rw [if_neg h8]
    have hdiv : (σ + 1) / 8 = σ / 8 := by omega
    unfold spdOf
    rw [hdiv]

lemma base_interval_ge (σ : ℤ) : 25 ≤ base_interval σ := le_max_left _ _

-- The coupling between the spawn interval and the speed at any score: a
-- freshly started countdown is long enough, at the current speed, to put at
-- least 186 pixels between consecutive spawns.
set_option maxRecDepth 40000 in
lemma gap_master : ∀ σ : ℤ, 0 ≤ σ → (186 : ℚ) ≤ ((base_interval σ - 9 : ℤ) : ℚ) * spdOf σ := by
  have hsmall : ∀ n : ℕ, n < 240 → (186 : ℚ) ≤ ((base_interval n - 9 : ℤ) : ℚ) * spdOf n := by
    decide
  intro σ hσ
  by_cases hbig : σ < 240
  · have h1 : σ = ((σ.toNat : ℕ) : ℤ) := by omega
    have h2 : σ.toNat < 240 := by omega
    rw [h1]
    exact hsmall σ.toNat h2
  · push_neg at hbig
    have hb : base_interval σ = 25 := by
      unfold base_interval
      have : σ / 5 ≥ 48 := by omega
      omega
    have hs : spdOf σ = 18 := by
      unfold spdOf MAX_SPEED
      have h8 : σ / 8 ≥ 30 := by omega
      have : ((σ / 8 : ℤ) : ℚ) ≥ 30 := by exact_mod_cast h8
      rw [min_eq_left (by linarith)]
    rw [hb, hs]
    norm_num

-- ── The session invariant ─────────────────────────────────────────────────

lemma inv_resetState : Inv resetState := by
  constructor
  · decide
  · intro h
    exact absurd h (by decide)
  · intro _
    decide
  · show (5 : ℚ) = spdOf 0
    unfold spdOf MAX_SPEED
    norm_num
  · decide
  · decide
  · intro e he
    simp [resetState] at he
  · exact List.Pairwise.nil
  · intro last h
    simp [resetState] at h

/-- The numeric content of a player/enemy rectangle overlap when the player
box sits at its fixed height 492. -/
lemma collide_window (q cx : ℤ) (ey : ℚ) :
    colliderect ⟨q, 492, 52, 84⟩ (enemyRect cx ey) = true ↔
      (cx - 78 < q ∧ q < cx + 26 ∧ 408 < pyint ey ∧ pyint ey < 576) := by
  unfold colliderect enemyRect ENEMY_W ENEMY_H
  rw [decide_eq_true_eq]
  norm_num
  constructor
  · rintro ⟨h1, h2, h3, h4⟩
    omega
  · rintro ⟨h1, h2, h3, h4⟩
    omega

/-- Two distinct enemies that both respect the lane-center and vertical-gap
invariants can not both be unsafe: the collision window is a single lane
wide and less than 168 pixels tall. -/
lemma two_unsafe_absurd (q : ℤ) (lo : ℚ) (hlo : 0 ≤ lo) (e₁ e₂ : Enemy)
    (hx₁ : e₁.cx ∈ LANE_X) (hx₂ : e₂.cx ∈ LANE_X)
    (hgap : e₂.y + (186 - lo) ≤ e₁.y)
    (hu₁ : ¬ SafeE ⟨q, 492, 52, 84⟩ lo e₁) (hu₂ : ¬ SafeE ⟨q, 492, 52, 84⟩ lo e₂) :
    False := by
  unfold SafeE at hu₁ hu₂
  push_neg at hu₁ hu₂
  obtain ⟨c₁, hc₁lo, hc₁hi, hcol₁⟩ := hu₁
  obtain ⟨c₂, hc₂lo, hc₂hi, hcol₂⟩ := hu₂
  rw [Bool.ne_false_iff] at hcol₁ hcol₂
  rw [collide_window] at hcol₁ hcol₂
  obtain ⟨ha₁, hb₁, hy₁, hy₁'⟩ := hcol₁
  obtain ⟨ha₂, hb₂, hy₂, hy₂'⟩ := hcol₂
  -- the two lane centers must coincide
  have hcx : e₁.cx = e₂.cx := by
    rw [LANE_X_eq] at hx₁ hx₂
    simp only [List.mem_cons, List.mem_singleton, List.not_mem_nil, or_false] at hx₁ hx₂
    rcases hx₁ with h | h | h <;> rcases hx₂ with h' | h' | h' <;> omega
  -- both truncated positions sit in the 167-pixel-tall window: impossible
  have h409 : ((409 : ℤ) : ℚ) ≤ e₂.y + c₂ := le_of_le_pyint (by norm_num) (by omega)
  have h0 : (0 : ℚ) ≤ e₂.y + c₂ := le_trans (by norm_num) h409
  have hsep : (e₂.y + c₂) + (168 : ℤ) ≤ e₁.y + c₁ := by
    push_cast
    linarith
  have := pyint_add_le h0 (by norm_num) hsep
  omega

/-- Under the lane and gap invariants, either every enemy is safe this tick,
or the list splits around a single possibly-unsafe enemy with all others
safe. -/
lemma decomp_of_gaps (q : ℤ) (lo : ℚ) (hlo : 0 ≤ lo) :
    ∀ l : List Enemy, (∀ e ∈ l, e.cx ∈ LANE_X) →
      l.Pairwise (fun a b => b.y + (186 - lo) ≤ a.y) →
      SafeList ⟨q, 492, 52, 84⟩ lo l ∨
        ∃ l₁ e₀ l₂, l = l₁ ++ e₀ :: l₂ ∧
          SafeList ⟨q, 492, 52, 84⟩ lo l₁ ∧ SafeList ⟨q, 492, 52, 84⟩ lo l₂ := by
  intro l
  induction l with
  | nil => intro _ _; exact Or.inl (by intro e he; cases he)
  | cons e t ih =>
    intro hlan hp
    rw [List.pairwise_cons] at hp
    by_cases hs : SafeE ⟨q, 492, 52, 84⟩ lo e
    · rcases ih (fun x hx => hlan x (List.mem_cons_of_mem e hx)) hp.2 with hall | ⟨l₁, e₀, l₂, heq, h₁, h₂⟩
      · left
        intro x hx
        rcases List.mem_cons.1 hx with rfl | hx
        · exact hs
        · exact hall x hx
      · right
        refine ⟨e :: l₁, e₀, l₂, by rw [heq, List.cons_append], ?_, h₂⟩
        intro x hx
        rcases List.mem_cons.1 hx with rfl | hx
        · exact hs
        · exact h₁ x hx
    · right
      refine ⟨[], e, t, rfl, ?_, ?_⟩
      · intro x hx
        exact absurd hx (List.not_mem_nil x)
      intro x hx
      by_contra hux
      exact two_unsafe_absurd q lo hlo e x
        (hlan e (List.mem_cons_self e t)) (hlan x (List.mem_cons_of_mem e hx))
        (hp.1 x hx) hs hux

-- ── Branch equations for one enemy-loop iteration ─────────────────────────

lemma processEnemy_hit {car : Rect} {sd : ℕ → ℕ → PSeed} {i : ℕ} {a : LoopAcc} {e : Enemy}
    (h : colliderect car (enemyRect e.cx (e.y + a.spd)) = true) :
    processEnemy car sd i a e =
      { a with
        lives := a.lives - 1
        particles := explode a.particles ((e.cx : ℤ) : ℚ)
          ((pyint (e.y + a.spd + ((ENEMY_H / 2 : ℤ) : ℚ)) : ℤ) : ℚ) e.pal (sd i)
        game_over := if a.lives - 1 ≤ 0 then true else a.game_over
        go_timer := if a.lives - 1 ≤ 0 then FPS * 2 else a.go_timer
        out := a.out ++ [({ e with y := e.y + a.spd }, Outcome.hit)] } := by
  simp [processEnemy, h]

lemma processEnemy_exit {car : Rect} {sd : ℕ → ℕ → PSeed} {i : ℕ} {a : LoopAcc} {e : Enemy}
    (hnc : colliderect car (enemyRect e.cx (e.y + a.spd)) = false)
    (hoff : ((WIN_H : ℤ) : ℚ) < e.y + a.spd) :
    processEnemy car sd i a e =
      { a with
        score := a.score + 1
        spd := if (a.score + 1) % 8 = 0 then min MAX_SPEED (a.spd + 1/2) else a.spd
        out := a.out ++ [({ e with y := e.y + a.spd }, Outcome.exited)] } := by
  simp [processEnemy, hnc, hoff]

lemma processEnemy_keep {car : Rect} {sd : ℕ → ℕ → PSeed} {i : ℕ} {a : LoopAcc} {e : Enemy}
    (hnc : colliderect car (enemyRect e.cx (e.y + a.spd)) = false)
    (hnoff : ¬ ((WIN_H : ℤ) : ℚ) < e.y + a.spd) :
    processEnemy car sd i a e =
      { a with out := a.out ++ [({ e with y := e.y + a.spd }, Outcome.kept)] } := by
  simp [processEnemy, hnc, hnoff]

/-- One loop iteration keeps the speed-score law, can only raise the score,
and moves the speed monotonically under its cap. -/
lemma processEnemy_law (car : Rect) (sd : ℕ → ℕ → PSeed) (i : ℕ) {a : LoopAcc} (e : Enemy)
    (hs : a.spd = spdOf a.score) (h0 : 0 ≤ a.score) :
    (processEnemy car sd i a e).spd = spdOf (processEnemy car sd i a e).score ∧
    0 ≤ (processEnemy car sd i a e).score ∧
    a.score ≤ (processEnemy car sd i a e).score := by
  by_cases hc : colliderect car (enemyRect e.cx (e.y + a.spd)) = true
  · rw [processEnemy_hit hc]
    exact ⟨hs, h0, le_rfl⟩
  · rw [Bool.not_eq_true] at hc
    by_cases hoff : ((WIN_H : ℤ) : ℚ) < e.y + a.spd
    · rw [processEnemy_exit hc hoff]
      refine ⟨?_, by simpa using by omega, by simp⟩
      show (if (a.score + 1) % 8 = 0 then min MAX_SPEED (a.spd + 1/2) else a.spd)
        = spdOf (a.score + 1)
      rw [spdOf_succ h0, hs]
    · rw [processEnemy_keep hc hoff]
      exact ⟨hs, h0, le_rfl⟩

-- ── Structural lemmas about the enemy-update loop ─────────────────────────

lemma runLoop_append (car : Rect) (sd : ℕ → ℕ → PSeed) :
    ∀ (l₁ l₂ : List Enemy) (i : ℕ) (a : LoopAcc),
      runLoop car sd i a (l₁ ++ l₂)
        = runLoop car sd (i + l₁.length) (runLoop car sd i a l₁) l₂ := by
  intro l₁
  induction l₁ with
  | nil => intro l₂ i a; simp [runLoop]
  | cons e t ih =>
    intro l₂ i a
    rw [List.cons_append]
    show runLoop car sd (i + 1) (processEnemy car sd i a e) (t ++ l₂) = _
    rw [ih]
    show runLoop car sd (i + 1 + t.length) _ l₂
      = runLoop car sd (i + (t.length + 1)) (runLoop car sd (i + 1) (processEnemy car sd i a e) t) l₂
    congr 1
    omega

/-- Along the loop the speed-score law is kept, the score never drops, and
the speed never drops. -/
lemma runLoop_law (car : Rect) (sd : ℕ → ℕ → PSeed) :
    ∀ (l : List Enemy) (i : ℕ) (a : LoopAcc), a.spd = spdOf a.score → 0 ≤ a.score →
      (runLoop car sd i a l).spd = spdOf (runLoop car sd i a l).score ∧
      0 ≤ (runLoop car sd i a l).score ∧
      a.score ≤ (runLoop car sd i a l).score ∧
      a.spd ≤ (runLoop car sd i a l).spd := by
  intro l
  induction l with
  | nil => intro i a h1 h2; exact ⟨h1, h2, le_rfl, le_rfl⟩
  | cons e t ih =>
    intro i a h1 h2
    obtain ⟨p1, p2, p3⟩ := processEnemy_law car sd i e h1 h2
    obtain ⟨q1, q2, q3, q4⟩ := ih (i + 1) (processEnemy car sd i a e) p1 p2
    refine ⟨q1, q2, le_trans p3 q3, ?_⟩
    calc a.spd = spdOf a.score := h1
    _ ≤ spdOf (processEnemy car sd i a e).score := spdOf_mono p3
    _ = (processEnemy car sd i a e).spd := p1.symm
    _ ≤ _ := q4

/-- What the loop writes into `out`: exactly one record per processed enemy,
in order, each the original enemy moved down by some amount between the
speed at the start of the loop and the speed at its end. -/
lemma runLoop_out (car : Rect) (sd : ℕ → ℕ → PSeed) :
    ∀ (l : List Enemy) (i : ℕ) (a : LoopAcc), a.spd = spdOf a.score → 0 ≤ a.score →
      ∃ entries : List (Enemy × Outcome),
        (runLoop car sd i a l).out = a.out ++ entries ∧
        List.Forall₂ (fun (e : Enemy) (en : Enemy × Outcome) =>
          en.1.cx = e.cx ∧ en.1.pal = e.pal ∧
          ∃ c : ℚ, a.spd ≤ c ∧ c ≤ (runLoop car sd i a l).spd ∧ en.1.y = e.y + c) l entries := by
  intro l
  induction l with
  | nil =>
    intro i a _ _
    exact ⟨[], by simp [runLoop], List.Forall₂.nil⟩
  | cons e t ih =>
    intro i a h1 h2
    obtain ⟨p1, p2, p3⟩ := processEnemy_law car sd i e h1 h2
    obtain ⟨entries, he, hf⟩ := ih (i + 1) (processEnemy car sd i a e) p1 p2
    have hspd_step : a.spd ≤ (processEnemy car sd i a e).spd := by
      calc a.spd = spdOf a.score := h1
      _ ≤ spdOf (processEnemy car sd i a e).score := spdOf_mono p3
      _ = _ := p1.symm
    have hrl : runLoop car sd i a (e :: t)
        = runLoop car sd (i + 1) (processEnemy car sd i a e) t := rfl
    have hout : (processEnemy car sd i a e).out
        = a.out ++ [({ e with y := e.y + a.spd },
            if colliderect car (enemyRect e.cx (e.y + a.spd)) = true then Outcome.hit
            else if ((WIN_H : ℤ) : ℚ) < e.y + a.spd then Outcome.exited else Outcome.kept)] := by
      by_cases hc : colliderect car (enemyRect e.cx (e.y + a.spd)) = true
      · rw [processEnemy_hit hc]
        simp [hc]
      · rw [Bool.not_eq_true] at hc
        by_cases hoff : ((WIN_H : ℤ) : ℚ) < e.y + a.spd
        · rw [processEnemy_exit hc hoff]
          simp [hc, hoff]
        · rw [processEnemy_keep hc hoff]
          simp [hc, hoff]
    have hspd_end : (processEnemy car sd i a e).spd ≤ (runLoop car sd i a (e :: t)).spd := by
      rw [hrl]
      exact (runLoop_law car sd t (i + 1) _ p1 p2).2.2.2
    refine ⟨({ e with y := e.y + a.spd },
        if colliderect car (enemyRect e.cx (e.y + a.spd)) = true then Outcome.hit
        else if ((WIN_H : ℤ) : ℚ) < e.y + a.spd then Outcome.exited else Outcome.kept) :: entries,
      ?_, ?_⟩
    · rw [hrl, he, hout, List.append_assoc, List.singleton_append]
    · refine List.Forall₂.cons ⟨rfl, rfl, a.spd, le_rfl, le_trans hspd_step hspd_end, rfl⟩ ?_
      refine hf.imp ?_
      rintro x y ⟨hcx, hpal, c, hc1, hc2, hc3⟩
      exact ⟨hcx, hpal, c, le_trans hspd_step hc1, by rw [hrl]; exact hc2, hc3⟩

lemma processEnemy_spd_mono (car : Rect) (sd : ℕ → ℕ → PSeed) (i : ℕ) {a : LoopAcc} (e : Enemy)
    (h1 : a.spd = spdOf a.score) (h2 : 0 ≤ a.score) :
    a.spd ≤ (processEnemy car sd i a e).spd := by
  obtain ⟨p1, _, p3⟩ := processEnemy_law car sd i e h1 h2
  calc a.spd = spdOf a.score := h1
  _ ≤ spdOf (processEnemy car sd i a e).score := spdOf_mono p3
  _ = _ := p1.symm

/-- A loop run over only safe enemies can not touch lives, the game-over
flag, the cooldown, or the particles. -/
lemma runLoop_safe (car : Rect) (sd : ℕ → ℕ → PSeed) (lo : ℚ) :
    ∀ (l : List Enemy) (i : ℕ) (a : LoopAcc), SafeList car lo l →
      lo ≤ a.spd → a.spd = spdOf a.score → 0 ≤ a.score →
      (runLoop car sd i a l).lives = a.lives ∧
      (runLoop car sd i a l).game_over = a.game_over ∧
      (runLoop car sd i a l).go_timer = a.go_timer ∧
      (runLoop car sd i a l).particles = a.particles := by
  intro l
  induction l with
  | nil => intro i a _ _ _ _; exact ⟨rfl, rfl, rfl, rfl⟩
  | cons e t ih =>
    intro i a hsafe hlo h1 h2
    have h18 : a.spd ≤ 18 := h1 ▸ spdOf_le a.score
    have hnc : colliderect car (enemyRect e.cx (e.y + a.spd)) = false :=
      hsafe e (List.mem_cons_self e t) a.spd hlo h18
    obtain ⟨p1, p2, _⟩ := processEnemy_law car sd i e h1 h2
    have hmono := processEnemy_spd_mono car sd i e h1 h2
    have htail := ih (i + 1) (processEnemy car sd i a e)
      (fun x hx => hsafe x (List.mem_cons_of_mem e hx)) (le_trans hlo hmono) p1 p2
    have hfields : (processEnemy car sd i a e).lives = a.lives ∧
        (processEnemy car sd i a e).game_over = a.game_over ∧
        (processEnemy car sd i a e).go_timer = a.go_timer ∧
        (processEnemy car sd i a e).particles = a.particles := by
      by_cases hoff : ((WIN_H : ℤ) : ℚ) < e.y + a.spd
      · rw [processEnemy_exit hnc hoff]
        exact ⟨rfl, rfl, rfl, rfl⟩
      · rw [processEnemy_keep hnc hoff]
        exact ⟨rfl, rfl, rfl, rfl⟩
    have hrl : runLoop car sd i a (e :: t)
        = runLoop car sd (i + 1) (processEnemy car sd i a e) t := rfl
    rw [hrl, htail.1, htail.2.1, htail.2.2.1, htail.2.2.2]
    exact hfields

/-- A loop run whose enemies are all safe except possibly one either changes
nothing about lives, or resolves exactly one collision, with the game-over
flag and cooldown set exactly as the collision branch writes them. -/
lemma runLoop_lives (car : Rect) (sd : ℕ → ℕ → PSeed) (lo : ℚ)
    (l₁ : List Enemy) (e₀ : Enemy) (l₂ : List Enemy) (i : ℕ) (a : LoopAcc)
    (hs₁ : SafeList car lo l₁) (hs₂ : SafeList car lo l₂)
    (hlo : lo ≤ a.spd) (h1 : a.spd = spdOf a.score) (h2 : 0 ≤ a.score) :
    ((runLoop car sd i a (l₁ ++ e₀ :: l₂)).lives = a.lives ∧
     (runLoop car sd i a (l₁ ++ e₀ :: l₂)).game_over = a.game_over ∧
     (runLoop car sd i a (l₁ ++ e₀ :: l₂)).go_timer = a.go_timer) ∨
    ((runLoop car sd i a (l₁ ++ e₀ :: l₂)).lives = a.lives - 1 ∧
     (runLoop car sd i a (l₁ ++ e₀ :: l₂)).game_over
       = (if a.lives - 1 ≤ 0 then true else a.game_over) ∧
     (runLoop car sd i a (l₁ ++ e₀ :: l₂)).go_timer
       = (if a.lives - 1 ≤ 0 then FPS * 2 else a.go_timer)) := by
  rw [runLoop_append]
  set a₁ := runLoop car sd i a l₁ with ha₁
  obtain ⟨f1, f2, f3, _⟩ := runLoop_safe car sd lo l₁ i a hs₁ hlo h1 h2
  obtain ⟨g1, g2, g3, g4⟩ := runLoop_law car sd l₁ i a h1 h2
  have hlo₁ : lo ≤ a₁.spd := le_trans hlo g4
  obtain ⟨p1, p2, _⟩ := processEnemy_law car sd (i + l₁.length) e₀ g1 g2
  have hmono := processEnemy_spd_mono car sd (i + l₁.length) e₀ g1 g2
  have hstep : runLoop car sd (i + l₁.length) a₁ (e₀ :: l₂)
      = runLoop car sd (i + l₁.length + 1) (processEnemy car sd (i + l₁.length) a₁ e₀) l₂ := rfl
  obtain ⟨t1, t2, t3, _⟩ := runLoop_safe car sd lo l₂ (i + l₁.length + 1)
    (processEnemy car sd (i + l₁.length) a₁ e₀) hs₂ (le_trans hlo₁ hmono) p1 p2
  rw [hstep, t1, t2, t3]
  by_cases hc : colliderect car (enemyRect e₀.cx (e₀.y + a₁.spd)) = true
  · right
    rw [processEnemy_hit hc]
    rw [f1, f2, f3]
    exact ⟨rfl, rfl, rfl⟩
  · left
    rw [Bool.not_eq_true] at hc
    by_cases hoff : ((WIN_H : ℤ) : ℚ) < e₀.y + a₁.spd
    · rw [processEnemy_exit hc hoff]
      exact ⟨f1, f2, f3⟩
    · rw [processEnemy_keep hc hoff]
      exact ⟨f1, f2, f3⟩

-- ── List helpers for the kept enemies ─────────────────────────────────────

lemma keptOf_sublist (o : List (Enemy × Outcome)) : List.Sublist (keptOf o) (o.map Prod.fst) := by
  induction o with
  | nil => exact List.Sublist.refl _
  | cons p t ih =>
    rw [List.map_cons]
    match hp : p.2 with
    | Outcome.kept =>
      show List.Sublist (List.filterMap _ (p :: t)) _
      rw [List.filterMap_cons]
      simp only [hp]
      exact ih.cons₂ p.1
    | Outcome.hit =>
      show List.Sublist (List.filterMap _ (p :: t)) _
      rw [List.filterMap_cons]
      simp only [hp]
      exact ih.cons p.1
    | Outcome.exited =>
      show List.Sublist (List.filterMap _ (p :: t)) _
      rw [List.filterMap_cons]
      simp only [hp]
      exact ih.cons p.1

lemma mem_keptOf {o : List (Enemy × Outcome)} {e : Enemy} (h : e ∈ keptOf o) :
    ∃ p ∈ o, p.1 = e := by
  obtain ⟨p, hp, hfp⟩ := List.mem_filterMap.1 h
  refine ⟨p, hp, ?_⟩
  rcases hpo : p.2 with _ | _ | _ <;> rw [hpo] at hfp <;> simp at hfp
  exact hfp

lemma forall₂_mem_right {α β : Type*} {P : α → β → Prop} :
    ∀ {l : List α} {l' : List β}, List.Forall₂ P l l' → ∀ {b}, b ∈ l' → ∃ a ∈ l, P a b := by
  intro l l' h
  induction h with
  | nil => intro b hb; cases hb
  | cons hab htail ih =>
    intro b hb
    rcases List.mem_cons.1 hb with rfl | hb
    · exact ⟨_, List.mem_cons_self _ _, hab⟩
    · obtain ⟨a, ha, hPa⟩ := ih hb
      exact ⟨a, List.mem_cons_of_mem _ ha, hPa⟩

lemma forall₂_pairwise {α β : Type*} {P : α → β → Prop} {R : α → α → Prop} {R' : β → β → Prop}
    (himp : ∀ a a' b b', P a b → P a' b' → R a a' → R' b b') :
    ∀ {l : List α} {l' : List β}, List.Forall₂ P l l' → l.Pairwise R → l'.Pairwise R' := by
  intro l l' h
  induction h with
  | nil => intro _; exact List.Pairwise.nil
  | @cons a b la lb hab htail ih =>
    intro hp
    rw [List.pairwise_cons] at hp
    refine List.Pairwise.cons ?_ (ih hp.2)
    intro b' hb'
    obtain ⟨a', ha', hPa'⟩ := forall₂_mem_right htail hb'
    exact himp a a' b b' hab hPa' (hp.1 a' ha')

lemma pairwise_getLast {α : Type*} {R : α → α → Prop} :
    ∀ {l : List α}, l.Pairwise R → ∀ {b}, l.getLast? = some b → ∀ a ∈ l, a = b ∨ R a b := by
  intro l
  induction l with
  | nil => intro _ b hb; cases hb
  | cons x t ih =>
    intro hp b hb a ha
    rw [List.pairwise_cons] at hp
    cases t with
    | nil =>
      simp only [List.getLast?_singleton, Option.some.injEq] at hb
      rcases List.mem_singleton.1 ha with rfl
      exact Or.inl hb
    | cons y t' =>
      have hb' : (y :: t').getLast? = some b := by
        rw [List.getLast?_cons_cons] at hb
        exact hb
      have hbmem : b ∈ y :: t' := List.mem_of_getLast?_eq_some hb'
      rcases List.mem_cons.1 ha with rfl | hat
      · exact Or.inr (hp.1 b hbmem)
      · exact ih hp.2 hb' a hat

-- ── Spawn-phase and state-plumbing lemmas ─────────────────────────────────

lemma spawnPhase_pos {s : GameState} {inp : Input}
    (h : s.spawn_cd - 1 ≤ 0 ∧ s.enemies.length < MAX_ENEMIES) :
    spawnPhase s inp =
      (s.enemies ++ [⟨LANE_X.getD (inp.rLane % LANE_COUNT) 0, ((-ENEMY_H : ℤ) : ℚ),
          ENEMY_PALETTES.getD (inp.rPal % ENEMY_PALETTES.length) (((0,0,0) : Color), ((0,0,0) : Color))⟩],
       base_interval s.score + (((inp.rJit % 17 : ℕ) : ℤ) - 8)) := by
  unfold spawnPhase
  rw [if_pos h]

lemma spawnPhase_neg {s : GameState} {inp : Input}
    (h : ¬ (s.spawn_cd - 1 ≤ 0 ∧ s.enemies.length < MAX_ENEMIES)) :
    spawnPhase s inp = (s.enemies, s.spawn_cd - 1) := by
  unfold spawnPhase
  rw [if_neg h]

lemma spawn_lane_mem (r : ℕ) : LANE_X.getD (r % LANE_COUNT) 0 ∈ LANE_X := by
  have h3 : r % LANE_COUNT < 3 := Nat.mod_lt _ (by decide)
  rw [LANE_X_eq]
  interval_cases h : (r % LANE_COUNT) <;> decide

lemma spawn_jitter_bounds (r : ℕ) :
    -8 ≤ ((r % 17 : ℕ) : ℤ) - 8 ∧ ((r % 17 : ℕ) : ℤ) - 8 ≤ 8 := by
  have : r % 17 < 17 := Nat.mod_lt _ (by decide)
  omega

lemma spawnPhase_preUpdate (s : GameState) (inp : Input) :
    spawnPhase (preUpdate s inp) inp = spawnPhase s inp := rfl

lemma goStep_cases (s1 : GameState) :
    goStep s1 = resetState ∨
      ((goStep s1).score = s1.score ∧ (goStep s1).lives = s1.lives ∧
       (goStep s1).game_over = s1.game_over ∧ (goStep s1).enemy_spd = s1.enemy_spd ∧
       (goStep s1).car_y = s1.car_y ∧ (goStep s1).enemies = s1.enemies ∧
       (goStep s1).spawn_cd = s1.spawn_cd) := by
  unfold goStep
  split_ifs with h1 h2
  · right
    exact ⟨rfl, rfl, rfl, rfl, rfl, rfl, rfl⟩
  · left
    rfl
  · right
    exact ⟨rfl, rfl, rfl, rfl, rfl, rfl, rfl⟩

lemma particlePhase_score (s : GameState) : (particlePhase s).score = s.score := rfl
lemma particlePhase_lives (s : GameState) : (particlePhase s).lives = s.lives := rfl
lemma particlePhase_game_over (s : GameState) : (particlePhase s).game_over = s.game_over := rfl
lemma particlePhase_spd (s : GameState) : (particlePhase s).enemy_spd = s.enemy_spd := rfl
lemma particlePhase_car_y (s : GameState) : (particlePhase s).car_y = s.car_y := rfl
lemma particlePhase_enemies (s : GameState) : (particlePhase s).enemies = s.enemies := rfl
lemma particlePhase_spawn_cd (s : GameState) : (particlePhase s).spawn_cd = s.spawn_cd := rfl
lemma particlePhase_go_timer (s : GameState) : (particlePhase s).go_timer = s.go_timer := rfl

lemma playStep_score (s : GameState) (inp : Input) :
    (playStep s inp).score = (tickAcc s inp).score := rfl
lemma playStep_lives (s : GameState) (inp : Input) :
    (playStep s inp).lives = (tickAcc s inp).lives := rfl
lemma playStep_game_over (s : GameState) (inp : Input) :
    (playStep s inp).game_over = (tickAcc s inp).game_over := rfl
lemma playStep_go_timer (s : GameState) (inp : Input) :
    (playStep s inp).go_timer = (tickAcc s inp).go_timer := rfl
lemma playStep_spd (s : GameState) (inp : Input) :
    (playStep s inp).enemy_spd = (tickAcc s inp).spd := rfl
lemma playStep_enemies (s : GameState) (inp : Input) :
    (playStep s inp).enemies = keptOf (tickAcc s inp).out := rfl
lemma playStep_spawn_cd (s : GameState) (inp : Input) :
    (playStep s inp).spawn_cd = (spawnPhase s inp).2 := rfl
lemma playStep_car_y (s : GameState) (inp : Input) :
    (playStep s inp).car_y = s.car_y := rfl

lemma exists_getLast? {α : Type*} {l : List α} (h : l ≠ []) : ∃ b, l.getLast? = some b := by
  cases hgl : l.getLast? with
  | none => exact absurd (List.getLast?_eq_none_iff.1 hgl) h
  | some b => exact ⟨b, rfl⟩

/-- Every enemy on screen when a spawn is possible has fallen at least 186
pixels: the newest-enemy bound plus the interval/speed coupling. -/
lemma enemies_low_of_spawn {s : GameState} (hI : Inv s) (hcd : s.spawn_cd ≤ 1) :
    ∀ e ∈ s.enemies, (102 : ℚ) ≤ e.y := by
  intro e he
  obtain ⟨lastO, hlastO⟩ := exists_getLast? (List.ne_nil_of_mem he)
  obtain ⟨σ, hσ0, _, hσb⟩ := hI.newest lastO hlastO
  have hlow : (102 : ℚ) ≤ lastO.y := by
    have h9 : ((base_interval σ - 9 : ℤ) : ℚ) ≤ ((base_interval σ - 8 - s.spawn_cd : ℤ) : ℚ) := by
      push_cast
      have : (s.spawn_cd : ℚ) ≤ 1 := by exact_mod_cast hcd
      linarith
    have := mul_le_mul_of_nonneg_right h9 (spdOf_nonneg hσ0)
    have hgm := gap_master σ hσ0
    linarith
  rcases pairwise_getLast hI.gaps hlastO e he with rfl | hrel
  · exact hlow
  · have h18 : s.enemy_spd ≤ 18 := hI.spd_eq ▸ spdOf_le _
    linarith

/-- What the spawn phase guarantees about the enemy list it hands to the
update loop. -/
lemma spawn_invariants (s : GameState) (inp : Input) (hI : Inv s) :
    (∀ e ∈ (spawnPhase s inp).1, e.cx ∈ LANE_X) ∧
    (spawnPhase s inp).1.Pairwise (fun a b => b.y + (186 - s.enemy_spd) ≤ a.y) ∧
    (spawnPhase s inp).1.length ≤ MAX_ENEMIES ∧
    (((spawnPhase s inp).1 = s.enemies ∧ (spawnPhase s inp).2 = s.spawn_cd - 1) ∨
     (∃ j : ℤ, -8 ≤ j ∧ (spawnPhase s inp).2 = base_interval s.score + j ∧
       ∀ e ∈ (spawnPhase s inp).1, (-84 : ℚ) ≤ e.y)) := by
  have hspd5 : (5 : ℚ) ≤ s.enemy_spd := hI.spd_eq ▸ five_le_spdOf hI.score_nonneg
  by_cases hsp : s.spawn_cd - 1 ≤ 0 ∧ s.enemies.length < MAX_ENEMIES
  · have hlow := enemies_low_of_spawn hI (by omega)
    have hnewy : ((-ENEMY_H : ℤ) : ℚ) = -84 := by norm_num [ENEMY_H]
    rw [spawnPhase_pos hsp]
    refine ⟨?_, ?_, ?_, Or.inr ⟨((inp.rJit % 17 : ℕ) : ℤ) - 8, (spawn_jitter_bounds _).1, rfl, ?_⟩⟩
    · intro e he
      rcases List.mem_append.1 he with h | h
      · exact hI.lanes e h
      · rcases List.mem_singleton.1 h with rfl
        exact spawn_lane_mem _
    · rw [List.pairwise_append]
      refine ⟨hI.gaps, List.pairwise_singleton _ _, ?_⟩
      intro a ha b hb
      rcases List.mem_singleton.1 hb with rfl
      show ((-ENEMY_H : ℤ) : ℚ) + (186 - s.enemy_spd) ≤ a.y
      rw [hnewy]
      have := hlow a ha
      linarith
    · rw [List.length_append, List.length_singleton]
      omega
    · intro e he
      rcases List.mem_append.1 he with h | h
      · have := hlow e h
        linarith
      · rcases List.mem_singleton.1 h with rfl
        show (-84 : ℚ) ≤ ((-ENEMY_H : ℤ) : ℚ)
        rw [hnewy]
  · rw [spawnPhase_neg hsp]
    exact ⟨hI.lanes, hI.gaps, hI.count_le, Or.inl ⟨rfl, rfl⟩⟩

-- ── Preservation of the invariant by one tick ─────────────────────────────

theorem inv_step (s : GameState) (inp : Input) (hI : Inv s) : Inv (step s inp) := by
  by_cases hgo : s.game_over = true
  · -- GameOver tick: either a full reset, or nothing relevant changes.
    rw [step_of_game_over s inp hgo]
    rcases goStep_cases (preUpdate s inp) with hres | ⟨e1, e2, e3, e4, e5, e6, e7⟩
    · rw [hres, particlePhase_resetState]
      exact inv_resetState
    · have hsc : (particlePhase (goStep (preUpdate s inp))).score = s.score := by
        rw [particlePhase_score, e1, preUpdate_score]
      have hlv : (particlePhase (goStep (preUpdate s inp))).lives = s.lives := by
        rw [particlePhase_lives, e2, preUpdate_lives]
      have hgg : (particlePhase (goStep (preUpdate s inp))).game_over = s.game_over := by
        rw [particlePhase_game_over, e3, preUpdate_game_over]
      have hsp : (particlePhase (goStep (preUpdate s inp))).enemy_spd = s.enemy_spd := by
        rw [particlePhase_spd, e4, preUpdate_spd]
      have hcy : (particlePhase (goStep (preUpdate s inp))).car_y = s.car_y := by
        rw [particlePhase_car_y, e5, preUpdate_car_y]
      have hen : (particlePhase (goStep (preUpdate s inp))).enemies = s.enemies := by
        rw [particlePhase_enemies, e6, preUpdate_enemies]
      have hcd : (particlePhase (goStep (preUpdate s inp))).spawn_cd = s.spawn_cd := by
        rw [particlePhase_spawn_cd, e7, preUpdate_spawn_cd]
      constructor
      · rw [hsc]; exact hI.score_nonneg
      · intro _; rw [hlv]; exact hI.lives_go hgo
      · intro h; rw [hgg] at h; rw [h] at hgo; exact absurd hgo (by decide)
      · rw [hsp, hsc]; exact hI.spd_eq
      · rw [hcy]; exact hI.car_y_eq
      · rw [hen]; exact hI.count_le
      · rw [hen]; exact hI.lanes
      · rw [hen, hsp]; exact hI.gaps
      · rw [hen, hcd, hsc]; exact hI.newest
  · -- Playing tick: spawn, move, resolve, prune.
    rw [Bool.not_eq_true] at hgo
    rw [step_of_playing s inp hgo]
    have hspd5 : (5 : ℚ) ≤ s.enemy_spd := hI.spd_eq ▸ five_le_spdOf hI.score_nonneg
    have hspd18 : s.enemy_spd ≤ 18 := hI.spd_eq ▸ spdOf_le _
    obtain ⟨hlan1, hgap1, hlen1, hspawn⟩ := spawn_invariants s inp hI
    -- name the pieces of the tick
    set en1 := (spawnPhase s inp).1 with hen1def
    set A := acc0 (preUpdate s inp) with hAdef
    have hAspd : A.spd = s.enemy_spd := rfl
    have hAscore : A.score = s.score := rfl
    have hAlives : A.lives = s.lives := rfl
    have hAgo : A.game_over = false := by rw [hAdef]; show s.game_over = false; exact hgo
    have hAout : A.out = [] := rfl
    have hAlaw : A.spd = spdOf A.score := hI.spd_eq
    have hA0 : 0 ≤ A.score := hI.score_nonneg
    set q := pyint (newCarX (preUpdate s inp) inp) with hqdef
    have hcar : carRect (preUpdate s inp) inp = ⟨q, 492, 52, 84⟩ := by
      unfold carRect
      rw [preUpdate_car_y, hI.car_y_eq]
      rfl
    set r := tickAcc (preUpdate s inp) inp with hrdef0
    have hrdef : r = runLoop ⟨q, 492, 52, 84⟩ inp.seeds 0 A en1 := by
      rw [hrdef0]
      unfold tickAcc
      rw [hcar, spawnPhase_preUpdate]
    -- the speed-score law along the loop
    have hlaw := runLoop_law ⟨q, 492, 52, 84⟩ inp.seeds en1 0 A hAlaw hA0
    rw [← hrdef] at hlaw
    obtain ⟨L1, L2, L3, L4⟩ := hlaw
    -- the processed entries
    obtain ⟨entries, hout, hf⟩ := runLoop_out ⟨q, 492, 52, 84⟩ inp.seeds en1 0 A hAlaw hA0
    rw [← hrdef] at hout hf
    rw [hAout, List.nil_append] at hout
    -- lives and game-over resolution: at most one collision
    have hLG : (r.lives = s.lives ∧ r.game_over = false ∧ r.go_timer = A.go_timer) ∨
        (r.lives = s.lives - 1 ∧
          r.game_over = (if s.lives - 1 ≤ 0 then true else false) ∧
          r.go_timer = (if s.lives - 1 ≤ 0 then FPS * 2 else A.go_timer)) := by
      rcases decomp_of_gaps q s.enemy_spd (by linarith) en1 hlan1 hgap1 with
        hall | ⟨l₁, e₀, l₂, hsplit, hsafe1, hsafe2⟩
      · obtain ⟨v1, v2, v3, _⟩ := runLoop_safe ⟨q, 492, 52, 84⟩ inp.seeds s.enemy_spd en1 0 A
          hall (le_of_eq hAspd.symm) hAlaw hA0
        rw [← hrdef] at v1 v2 v3
        exact Or.inl ⟨by rw [v1, hAlives], by rw [v2, hAgo], v3⟩
      · have := runLoop_lives ⟨q, 492, 52, 84⟩ inp.seeds s.enemy_spd l₁ e₀ l₂ 0 A
          hsafe1 hsafe2 (le_of_eq hAspd.symm) hAlaw hA0
        rw [← hsplit, ← hrdef] at this
        rcases this with ⟨v1, v2, v3⟩ | ⟨v1, v2, v3⟩
        · exact Or.inl ⟨by rw [v1, hAlives], by rw [v2, hAgo], v3⟩
        · refine Or.inr ⟨by rw [v1, hAlives], ?_, by rw [v3, hAlives]⟩
          rw [v2, hAlives, hAgo]
      -- the state after the whole tick
    have hXsc : (particlePhase (playStep (preUpdate s inp) inp)).score = r.score := by
      rw [particlePhase_score, playStep_score]
    have hXlv : (particlePhase (playStep (preUpdate s inp) inp)).lives = r.lives := by
      rw [particlePhase_lives, playStep_lives]
    have hXgo : (particlePhase (playStep (preUpdate s inp) inp)).game_over = r.game_over := by
      rw [particlePhase_game_over, playStep_game_over]
    have hXspd : (particlePhase (playStep (preUpdate s inp) inp)).enemy_spd = r.spd := by
      rw [particlePhase_spd, playStep_spd]
    have hXcy : (particlePhase (playStep (preUpdate s inp) inp)).car_y = s.car_y := by
      rw [particlePhase_car_y, playStep_car_y, preUpdate_car_y]
    have hXen : (particlePhase (playStep (preUpdate s inp) inp)).enemies = keptOf r.out := by
      rw [particlePhase_enemies, playStep_enemies]
    have hXcd : (particlePhase (playStep (preUpdate s inp) inp)).spawn_cd
        = (spawnPhase s inp).2 := by
      rw [particlePhase_spawn_cd, playStep_spawn_cd, spawnPhase_preUpdate]
    have hlives13 := hI.lives_play hgo
    constructor
    · -- score stays non-negative
      rw [hXsc]; exact L2
    · -- game over forces zero lives
      intro h
      rw [hXgo] at h
      rw [hXlv]
      rcases hLG with ⟨v1, v2, _⟩ | ⟨v1, v2, _⟩
      · rw [v2] at h; exact absurd h (by decide)
      · rw [v2] at h
        by_cases hd : s.lives - 1 ≤ 0
        · rw [v1]; omega
        · rw [if_neg hd] at h; exact absurd h (by decide)
    · -- a running game keeps one to three lives
      intro h
      rw [hXgo] at h
      rw [hXlv]
      rcases hLG with ⟨v1, _, _⟩ | ⟨v1, v2, _⟩
      · rw [v1]; exact hlives13
      · rw [v2] at h
        by_cases hd : s.lives - 1 ≤ 0
        · rw [if_pos hd] at h; exact absurd h (by decide)
        · rw [v1]; omega
    · -- the speed-score law
      rw [hXspd, hXsc]; exact L1
    · -- fixed player height
      rw [hXcy]; exact hI.car_y_eq
    · -- the enemy cap
      rw [hXen, hout]
      calc (keptOf entries).length ≤ (entries.map Prod.fst).length :=
        (keptOf_sublist entries).length_le
      _ = entries.length := List.length_map _ _
      _ = en1.length := (List.Forall₂.length_eq hf).symm
      _ ≤ MAX_ENEMIES := hlen1
    · -- every enemy sits at a lane center
      rw [hXen, hout]
      intro e he
      obtain ⟨p, hp, hpe⟩ := mem_keptOf he
      obtain ⟨a, ha, hcx, _, _⟩ := forall₂_mem_right hf hp
      rw [← hpe, hcx]
      exact hlan1 a ha
    · -- vertical gaps survive the move
      rw [hXen, hXspd, hout]
      have hpe : entries.Pairwise
          (fun p1 p2 : Enemy × Outcome => p2.1.y + (186 - r.spd) ≤ p1.1.y) := by
        refine forall₂_pairwise ?_ hf hgap1
        rintro a a' b b' ⟨_, _, c, hc1, hc2, hcy⟩ ⟨_, _, c', hc1', hc2', hcy'⟩ hrel
        rw [hcy, hcy']
        have hsg : s.enemy_spd ≤ c := by rw [← hAspd]; exact hc1
        linarith [hc2']
      have hmap : (entries.map Prod.fst).Pairwise
          (fun a b : Enemy => b.y + (186 - r.spd) ≤ a.y) :=
        List.pairwise_map.2 hpe
      exact hmap.sublist (keptOf_sublist entries)
    · -- the newest-enemy travel bound
      rw [hXen, hXcd, hXsc]
      intro lastK hlast
      have hmem : lastK ∈ keptOf r.out := List.mem_of_getLast?_eq_some hlast
      rw [hout] at hmem
      obtain ⟨p, hp, hpe⟩ := mem_keptOf hmem
      obtain ⟨estar, hestar, _, _, c, hc1, hc2, hcy⟩ := forall₂_mem_right hf hp
      have hcspd : s.enemy_spd ≤ c := by rw [← hAspd]; exact hc1
      have hlky : lastK.y = estar.y + c := by rw [← hpe, hcy]
      rcases hspawn with ⟨hlist, hcd⟩ | ⟨j, hj, hcd, hy84⟩
      · -- no spawn this tick
        rw [hlist] at hestar
        obtain ⟨lastO, hlastO⟩ := exists_getLast? (List.ne_nil_of_mem hestar)
        obtain ⟨σ, hσ0, hσle, hσb⟩ := hI.newest lastO hlastO
        have hord : lastO.y ≤ estar.y := by
          rcases pairwise_getLast hI.gaps hlastO estar hestar with rfl | hrel
          · exact le_refl _
          · linarith
        refine ⟨σ, hσ0, le_trans hσle (by rw [← hAscore]; exact L3), ?_⟩
        rw [hcd]
        have hcast : ((base_interval σ - 8 - (s.spawn_cd - 1) : ℤ) : ℚ)
            = ((base_interval σ - 8 - s.spawn_cd : ℤ) : ℚ) + 1 := by push_cast; ring
        rw [hcast, add_mul, one_mul]
        have hmono : spdOf σ ≤ s.enemy_spd := by
          rw [hI.spd_eq]; exact spdOf_mono hσle
        rw [hlky]
        linarith
      · -- an enemy was spawned this tick
        refine ⟨s.score, hI.score_nonneg, by rw [← hAscore]; exact L3, ?_⟩
        rw [hcd]
        have hcast : ((base_interval s.score - 8 - (base_interval s.score + j) : ℤ) : ℚ)
            = -8 - (j : ℚ) := by push_cast; ring
        rw [hcast]
        have hjq : (-8 : ℚ) ≤ (j : ℚ) := by exact_mod_cast hj
        have hprod : (-8 - (j : ℚ)) * spdOf s.score ≤ 0 :=
          mul_nonpos_iff.2 (Or.inr ⟨by linarith, spdOf_nonneg hI.score_nonneg⟩)
        have hey : (-84 : ℚ) ≤ estar.y := hy84 estar hestar
        rw [hlky]
        linarith

theorem inv_run : ∀ (l : List Input) (s : GameState), Inv s → Inv (run s l) := by
  intro l
  induction l with
  | nil => intro s h; exact h
  | cons i t ih => intro s h; exact ih (step s i) (inv_step s i h)

theorem reachable_inv {s : GameState} (h : Reachable s) : Inv s := by
  obtain ⟨l, hl⟩ := h
  rw [← hl]
  exact inv_run l resetState inv_resetState

-- ── C1: lives stay non-negative and vanish exactly at game over ───────────

/-- Claim C1: in every reachable session state (after a whole tick has been
applied) the lives count is non-negative, and it is zero exactly when the
game-over flag is set. -/
theorem c1_lives_nonneg_game_over (s : GameState) (h : Reachable s) :
    0 ≤ s.lives ∧ (s.lives = 0 ↔ s.game_over = true) := by
  have hI := reachable_inv h
  by_cases hgo : s.game_over = true
  · have := hI.lives_go hgo
    exact ⟨by omega, by rw [this, hgo]; exact ⟨fun _ => rfl, fun _ => rfl⟩⟩
  · rw [Bool.not_eq_true] at hgo
    obtain ⟨h1, h3⟩ := hI.lives_play hgo
    refine ⟨by omega, ?_, ?_⟩
    · intro h0; omega
    · intro hc; rw [hgo] at hc; exact absurd hc (by decide)

/-- Witness for C1 at the initial state. -/
theorem c1_lives_nonneg_game_over_witness :
    0 ≤ resetState.lives ∧ (resetState.lives = 0 ↔ resetState.game_over = true) :=
  c1_lives_nonneg_game_over resetState ⟨[], rfl⟩

-- ── C6: the enemy cap holds and a blocked spawn is a silent no-op ─────────

/-- Claim C6: in every reachable state the obstacle collection has at most
`MAX_ENEMIES` entries, and when the decremented spawn countdown is due but
the collection is full, the spawn phase silently leaves the collection
unchanged (only the countdown decrement happens). -/
theorem c6_enemy_cap :
    (∀ s : GameState, Reachable s → s.enemies.length ≤ MAX_ENEMIES) ∧
    (∀ (s : GameState) (inp : Input), s.spawn_cd - 1 ≤ 0 →
      s.enemies.length = MAX_ENEMIES →
      spawnPhase s inp = (s.enemies, s.spawn_cd - 1)) := by
  constructor
  · intro s h
    exact (reachable_inv h).count_le
  · intro s inp _ hlen
    exact spawnPhase_neg (by omega)

/-- Witness for C6: the initial state, and a state at the cap with the
countdown due. -/
theorem c6_enemy_cap_witness :
    resetState.enemies.length ≤ MAX_ENEMIES ∧
    spawnPhase
        { resetState with
          enemies := List.replicate 12 ⟨186, 100, ((220, 50, 50), (140, 20, 20))⟩,
          spawn_cd := 0 }
        inpNone =
      ({ resetState with
          enemies := List.replicate 12 ⟨186, 100, ((220, 50, 50), (140, 20, 20))⟩,
          spawn_cd := 0 }.enemies,
       { resetState with
          enemies := List.replicate 12 ⟨186, 100, ((220, 50, 50), (140, 20, 20))⟩,
          spawn_cd := 0 }.spawn_cd - 1) :=
  ⟨c6_enemy_cap.1 resetState ⟨[], rfl⟩,
   c6_enemy_cap.2 _ _ (by decide) (by decide)⟩

-- ── C10 and C3: the score and speed bookkeeping of a tick ─────────────────

/-- The single `out` record one loop iteration appends, with its outcome
determined by the collision test first and the off-screen test second. -/
lemma processEnemy_out (car : Rect) (sd : ℕ → ℕ → PSeed) (i : ℕ) (a : LoopAcc) (e : Enemy) :
    (processEnemy car sd i a e).out = a.out ++
      [({ e with y := e.y + a.spd },
        if colliderect car (enemyRect e.cx (e.y + a.spd)) = true then Outcome.hit
        else if ((WIN_H : ℤ) : ℚ) < e.y + a.spd then Outcome.exited else Outcome.kept)] := by
  by_cases hc : colliderect car (enemyRect e.cx (e.y + a.spd)) = true
  · rw [processEnemy_hit hc]
    simp [hc]
  · rw [Bool.not_eq_true] at hc
    by_cases hoff : ((WIN_H : ℤ) : ℚ) < e.y + a.spd
    · rw [processEnemy_exit hc hoff]
      simp [hc, hoff]
    · rw [processEnemy_keep hc hoff]
      simp [hc, hoff]

/-- The loop's score bookkeeping: the final score is the starting score plus
one per enemy it resolved as an off-screen exit. -/
lemma runLoop_score_exits (car : Rect) (sd : ℕ → ℕ → PSeed) :
    ∀ (l : List Enemy) (i : ℕ) (a : LoopAcc),
      ∃ entries : List (Enemy × Outcome),
        (runLoop car sd i a l).out = a.out ++ entries ∧
        (runLoop car sd i a l).score
          = a.score + entries.countP (fun en => decide (en.2 = Outcome.exited)) := by
  intro l
  induction l with
  | nil => intro i a; exact ⟨[], by simp [runLoop], by simp [runLoop]⟩
  | cons e t ih =>
    intro i a
    obtain ⟨entries, he, hs⟩ := ih (i + 1) (processEnemy car sd i a e)
    have hrl : runLoop car sd i a (e :: t)
        = runLoop car sd (i + 1) (processEnemy car sd i a e) t := rfl
    refine ⟨({ e with y := e.y + a.spd },
        if colliderect car (enemyRect e.cx (e.y + a.spd)) = true then Outcome.hit
        else if ((WIN_H : ℤ) : ℚ) < e.y + a.spd then Outcome.exited else Outcome.kept) :: entries,
      ?_, ?_⟩
    · rw [hrl, he, processEnemy_out, List.append_assoc, List.singleton_append]
    · rw [hrl, hs, List.countP_cons]
      by_cases hc : colliderect car (enemyRect e.cx (e.y + a.spd)) = true
      · rw [processEnemy_hit hc]
        simp [hc]
      · rw [Bool.not_eq_true] at hc
        by_cases hoff : ((WIN_H : ℤ) : ℚ) < e.y + a.spd
        · rw [processEnemy_exit hc hoff]
          simp only [hc, hoff, if_true, if_false, Bool.false_eq_true, if_neg (by simp : ¬ false = true)]
          show a.score + 1 + (entries.countP _ : ℤ)
            = a.score + ((entries.countP _ + if decide (Outcome.exited = Outcome.exited) = true then 1 else 0 : ℕ) : ℤ)
          simp only [decide_eq_true_eq, if_pos rfl]
          push_cast
          ring
        · rw [processEnemy_keep hc hoff]
          simp [hc, hoff]

/-- Claim C10: within a session the score never decreases; on a Playing tick
it grows by exactly one per obstacle the loop resolved as an off-screen exit
(an outcome only the non-colliding, past-the-bottom branch produces), and on
a GameOver tick that does not restart it is unchanged. -/
theorem c10_score_bookkeeping :
    (∀ (s : GameState) (inp : Input), s.game_over = false →
      (step s inp).score = s.score +
        ((tickAcc (preUpdate s inp) inp).out.countP
          (fun en => decide (en.2 = Outcome.exited))) ∧
      s.score ≤ (step s inp).score) ∧
    (∀ (car : Rect) (sd : ℕ → ℕ → PSeed) (i : ℕ) (a : LoopAcc) (e : Enemy),
      (processEnemy car sd i a e).out = a.out ++
        [({ e with y := e.y + a.spd },
          if colliderect car (enemyRect e.cx (e.y + a.spd)) = true then Outcome.hit
          else if ((WIN_H : ℤ) : ℚ) < e.y + a.spd then Outcome.exited else Outcome.kept)]) ∧
    (∀ (s : GameState) (inp : Input), s.game_over = true →
      (0 < s.go_timer ∨ (preUpdate s inp).hand_x = none) →
      (step s inp).score = s.score) := by
  refine ⟨?_, processEnemy_out, ?_⟩
  · intro s inp hgo
    rw [step_of_playing s inp hgo]
    rw [particlePhase_score, playStep_score]
    obtain ⟨entries, he, hs⟩ := runLoop_score_exits (carRect (preUpdate s inp) inp) inp.seeds
      (spawnPhase (preUpdate s inp) inp).1 0 (acc0 (preUpdate s inp))
    have hdef : tickAcc (preUpdate s inp) inp
        = runLoop (carRect (preUpdate s inp) inp) inp.seeds 0 (acc0 (preUpdate s inp))
            (spawnPhase (preUpdate s inp) inp).1 := rfl
    rw [← hdef] at he hs
    have hout0 : (acc0 (preUpdate s inp)).out = [] := rfl
    rw [hout0, List.nil_append] at he
    have hsc0 : (acc0 (preUpdate s inp)).score = s.score := rfl
    rw [hsc0, ← he] at hs
    exact ⟨hs, by omega⟩
  · intro s inp hgo hcase
    rw [step_of_game_over s inp hgo, particlePhase_score]
    unfold goStep
    rcases hcase with ht | hh
    · rw [if_pos (by rw [preUpdate_go_timer]; exact ht)]
      rfl
    · by_cases ht : 0 < (preUpdate s inp).go_timer
      · rw [if_pos ht]
        rfl
      · rw [if_neg ht, if_neg (by rw [hh]; simp)]
        rfl

/-- Witness for C10: a tick from the initial state and a cooldown tick. -/
theorem c10_score_bookkeeping_witness :
    ((step resetState inpNone).score =
      resetState.score +
        ((tickAcc (preUpdate resetState inpNone)
            inpNone).out.countP
          (fun en => decide (en.2 = Outcome.exited))) ∧
      resetState.score ≤ (step resetState inpNone).score) ∧
    (step { resetState with game_over := true, lives := 0, go_timer := 120 }
        inpNone).score =
      ({ resetState with game_over := true, lives := 0, go_timer := 120 } : GameState).score :=
  ⟨c10_score_bookkeeping.1 resetState inpNone rfl,
   c10_score_bookkeeping.2.2 { resetState with game_over := true, lives := 0, go_timer := 120 }
     inpNone rfl (Or.inl (by decide))⟩

/-- Amended claim C3: in every reachable state the speed equals
`min(MAX_SPEED, 5 + 0.5·(score / 8))` — so it lies in `[5, MAX_SPEED]`, gains
exactly `1/2` on a tick whose retirement carries the score past a multiple of
8 while the speed is below the cap, stays unchanged at the cap, and never
changes otherwise — and on any tick that does not restart the session it
never decreases. -/
theorem c3_speed_law :
    (∀ s : GameState, Reachable s →
      5 ≤ s.enemy_spd ∧ s.enemy_spd ≤ MAX_SPEED ∧ s.enemy_spd = spdOf s.score) ∧
    (∀ σ : ℤ, 0 ≤ σ →
      spdOf (σ + 1) = if (σ + 1) % 8 = 0 then min MAX_SPEED (spdOf σ + 1/2) else spdOf σ) ∧
    (∀ (s : GameState) (inp : Input), Reachable s →
      (s.game_over = false ∨ 0 < s.go_timer ∨ (preUpdate s inp).hand_x = none) →
      s.enemy_spd ≤ (step s inp).enemy_spd) := by
  refine ⟨?_, fun σ h => spdOf_succ h, ?_⟩
  · intro s h
    have hI := reachable_inv h
    exact ⟨hI.spd_eq ▸ five_le_spdOf hI.score_nonneg, hI.spd_eq ▸ spdOf_le _, hI.spd_eq⟩
  · intro s inp h hcase
    have hI := reachable_inv h
    by_cases hgo : s.game_over = true
    · rw [step_of_game_over s inp hgo, particlePhase_spd]
      unfold goStep
      rcases hcase with hpl | ht | hh
      · rw [hpl] at hgo; exact absurd hgo (by decide)
      · rw [if_pos (by rw [preUpdate_go_timer]; exact ht)]
        exact le_of_eq rfl
      · by_cases ht : 0 < (preUpdate s inp).go_timer
        · rw [if_pos ht]
          exact le_of_eq rfl
        · rw [if_neg ht, if_neg (by rw [hh]; simp)]
          exact le_of_eq rfl
    · rw [Bool.not_eq_true] at hgo
      rw [step_of_playing s inp hgo, particlePhase_spd, playStep_spd]
      have hdef : tickAcc (preUpdate s inp) inp
          = runLoop (carRect (preUpdate s inp) inp) inp.seeds 0 (acc0 (preUpdate s inp))
              (spawnPhase (preUpdate s inp) inp).1 := rfl
      have hlaw := runLoop_law (carRect (preUpdate s inp) inp) inp.seeds
        (spawnPhase (preUpdate s inp) inp).1 0 (acc0 (preUpdate s inp))
        hI.spd_eq hI.score_nonneg
      rw [← hdef] at hlaw
      exact hlaw.2.2.2

/-- Witness for C3 at the initial state and a first tick. -/
theorem c3_speed_law_witness :
    (5 ≤ resetState.enemy_spd ∧ resetState.enemy_spd ≤ MAX_SPEED ∧
      resetState.enemy_spd = spdOf resetState.score) ∧
    spdOf (7 + 1) = (if ((7 : ℤ) + 1) % 8 = 0 then min MAX_SPEED (spdOf 7 + 1/2) else spdOf 7) ∧
    resetState.enemy_spd ≤
      (step resetState inpNone).enemy_spd :=
  ⟨c3_speed_law.1 resetState ⟨[], rfl⟩,
   c3_speed_law.2.1 7 (by decide),
   c3_speed_law.2.2 resetState inpNone ⟨[], rfl⟩
     (Or.inl rfl)⟩

/-- Amended claim C8: on every tick that starts in GameOver and does not
trigger a restart (the cooldown is still positive, or no hand signal is
stored), the obstacle collection, spawn countdown, score, lives, and speed
are all left untouched and the game stays over, while the particle
collection is still advanced and pruned. -/
theorem c8_gameover_freeze (s : GameState) (inp : Input)
    (hgo : s.game_over = true)
    (hcase : 0 < s.go_timer ∨ (preUpdate s inp).hand_x = none) :
    (step s inp).enemies = s.enemies ∧
    (step s inp).spawn_cd = s.spawn_cd ∧
    (step s inp).score = s.score ∧
    (step s inp).lives = s.lives ∧
    (step s inp).enemy_spd = s.enemy_spd ∧
    (step s inp).game_over = true ∧
    (step s inp).particles = particleTick s.particles := by
  rw [step_of_game_over s inp hgo]
  have hgs : ∀ t : GameState, t.game_over = true → 0 < t.go_timer ∨ t.hand_x = none →
      (goStep t).enemies = t.enemies ∧ (goStep t).spawn_cd = t.spawn_cd ∧
      (goStep t).score = t.score ∧ (goStep t).lives = t.lives ∧
      (goStep t).enemy_spd = t.enemy_spd ∧ (goStep t).game_over = true ∧
      (goStep t).particles = t.particles := by
    intro t hgot hct
    unfold goStep
    rcases hct with ht | hh
    · rw [if_pos ht]
      exact ⟨rfl, rfl, rfl, rfl, rfl, hgot, rfl⟩
    · by_cases ht : 0 < t.go_timer
      · rw [if_pos ht]
        exact ⟨rfl, rfl, rfl, rfl, rfl, hgot, rfl⟩
      · rw [if_neg ht, if_neg (by rw [hh]; simp)]
        exact ⟨rfl, rfl, rfl, rfl, rfl, hgot, rfl⟩
  obtain ⟨g1, g2, g3, g4, g5, g6, g7⟩ := hgs (preUpdate s inp)
    (by rw [preUpdate_game_over]; exact hgo)
    (by rcases hcase with h | h
        · exact Or.inl (by rw [preUpdate_go_timer]; exact h)
        · exact Or.inr h)
  refine ⟨?_, ?_, ?_, ?_, ?_, ?_, ?_⟩
  · rw [particlePhase_enemies, g1, preUpdate_enemies]
  · rw [particlePhase_spawn_cd, g2, preUpdate_spawn_cd]
  · rw [particlePhase_score, g3, preUpdate_score]
  · rw [particlePhase_lives, g4, preUpdate_lives]
  · rw [particlePhase_spd, g5, preUpdate_spd]
  · rw [particlePhase_game_over, g6]
  · show particleTick (goStep (preUpdate s inp)).particles = _
    rw [g7, preUpdate_particles]

/-- Witness for C8 at a concrete cooling-down state with live particles. -/
theorem c8_gameover_freeze_witness :
    (step coolState inpNone).enemies = coolState.enemies ∧
    (step coolState inpNone).spawn_cd = coolState.spawn_cd ∧
    (step coolState inpNone).score = coolState.score ∧
    (step coolState inpNone).lives = coolState.lives ∧
    (step coolState inpNone).enemy_spd = coolState.enemy_spd ∧
    (step coolState inpNone).game_over = true ∧
    (step coolState inpNone).particles = particleTick coolState.particles :=
  c8_gameover_freeze coolState inpNone rfl (Or.inl (by decide))

set_option maxRecDepth 1000000 in
lemma c3chunk1 : run resetState (List.replicate 100 inpNone) = c3s1 := by decide

set_option maxRecDepth 1000000 in
lemma c3chunk2 : run c3s1 (List.replicate 100 inpNone) = c3s2 := by decide

set_option maxRecDepth 1000000 in
lemma c3chunk3 : run c3s2 (List.replicate 100 inpNone) = c3s3 := by decide

set_option maxRecDepth 1000000 in
lemma c3chunk4 : run c3s3 (List.replicate 100 inpNone) = c3s4 := by decide

set_option maxRecDepth 1000000 in
lemma c3chunk5 : run c3s4 (List.replicate 100 inpNone) = c3s5 := by decide

set_option maxRecDepth 1000000 in
lemma c3chunk6 : run c3s5 (List.replicate 100 inpNone) = c3s6 := by decide

set_option maxRecDepth 1000000 in
lemma c3chunk7 : run c3s6 (List.replicate 100 inpNone) = c3s7 := by decide

set_option maxRecDepth 1000000 in
lemma c3chunk8 : run c3s7 (List.replicate 100 inpNone) = c3s8 := by decide

set_option maxRecDepth 1000000 in
lemma c3chunk9 : run c3s8 (List.replicate 100 inpNone) = c3s9 := by decide

set_option maxRecDepth 1000000 in
lemma c3chunk10 : run c3s9 (List.replicate 100 inpNone) = c3s10 := by decide

set_option maxRecDepth 1000000 in
lemma c3chunk11 : run c3s10 (List.replicate 100 inpNone) = c3s11 := by decide

set_option maxRecDepth 1000000 in
lemma c3chunk12 : run c3s11 (List.replicate 100 inpNone) = c3s12 := by decide

set_option maxRecDepth 1000000 in
lemma c3chunk13 : run c3s12 (List.replicate 100 inpNone) = c3s13 := by decide

set_option maxRecDepth 1000000 in
lemma c3chunk14 : run c3s13 (List.replicate 100 inpNone) = c3s14 := by decide

set_option maxRecDepth 1000000 in
lemma c3chunk15 : run c3s14 (List.replicate 100 inpNone) = c3s15 := by decide

set_option maxRecDepth 1000000 in
lemma c3chunk16 : run c3s15 (List.replicate 100 inpNone) = c3s16 := by decide

set_option maxRecDepth 1000000 in
lemma c3chunk17 : run c3s16 (List.replicate 100 inpNone) = c3s17 := by decide

set_option maxRecDepth 1000000 in
lemma c3chunk18 : run c3s17 (List.replicate 100 inpNone) = c3s18 := by decide

set_option maxRecDepth 1000000 in
lemma c3chunk19 : run c3s18 (List.replicate 100 inpNone) = c3s19 := by decide

set_option maxRecDepth 1000000 in
lemma c3chunk20 : run c3s19 (List.replicate 100 inpNone) = c3s20 := by decide

set_option maxRecDepth 1000000 in
lemma c3chunk21 : run c3s20 (List.replicate 100 inpNone) = c3s21 := by decide

set_option maxRecDepth 1000000 in
lemma c3chunk22 : run c3s21 (List.replicate 100 inpNone) = c3s22 := by decide

set_option maxRecDepth 1000000 in
lemma c3chunk23 : run c3s22 (List.replicate 100 inpNone) = c3s23 := by decide

set_option maxRecDepth 1000000 in
lemma c3chunk24 : run c3s23 (List.replicate 100 inpNone) = c3s24 := by decide

set_option maxRecDepth 1000000 in
lemma c3chunk25 : run c3s24 (List.replicate 100 inpNone) = c3s25 := by decide

set_option maxRecDepth 1000000 in
lemma c3chunk26 : run c3s25 (List.replicate 100 inpNone) = c3s26 := by decide

set_option maxRecDepth 1000000 in
lemma c3chunk27 : run c3s26 (List.replicate 100 inpNone) = c3s27 := by decide

set_option maxRecDepth 1000000 in
lemma c3chunk28 : run c3s27 (List.replicate 100 inpNone) = c3s28 := by decide

set_option maxRecDepth 1000000 in
lemma c3chunk29 : run c3s28 (List.replicate 100 inpNone) = c3s29 := by decide

set_option maxRecDepth 1000000 in
lemma c3chunk30 : run c3s29 (List.replicate 100 inpNone) = c3s30 := by decide

set_option maxRecDepth 1000000 in
lemma c3chunk31 : run c3s30 (List.replicate 100 inpNone) = c3s31 := by decide

set_option maxRecDepth 1000000 in
lemma c3chunk32 : run c3s31 (List.replicate 100 inpNone) = c3s32 := by decide

set_option maxRecDepth 1000000 in
lemma c3chunk33 : run c3s32 (List.replicate 100 inpNone) = c3s33 := by decide

set_option maxRecDepth 1000000 in
lemma c3chunk34 : run c3s33 (List.replicate 100 inpNone) = c3s34 := by decide

set_option maxRecDepth 1000000 in
lemma c3chunk35 : run c3s34 (List.replicate 100 inpNone) = c3s35 := by decide

set_option maxRecDepth 1000000 in
lemma c3chunk36 : run c3s35 (List.replicate 100 inpNone) = c3s36 := by decide

set_option maxRecDepth 1000000 in
lemma c3chunk37 : run c3s36 (List.replicate 100 inpNone) = c3s37 := by decide

set_option maxRecDepth 1000000 in
lemma c3chunk38 : run c3s37 (List.replicate 100 inpNone) = c3s38 := by decide

set_option maxRecDepth 1000000 in
lemma c3chunk39 : run c3s38 (List.replicate 100 inpNone) = c3s39 := by decide

set_option maxRecDepth 1000000 in
lemma c3chunk40 : run c3s39 (List.replicate 100 inpNone) = c3s40 := by decide

set_option maxRecDepth 1000000 in
lemma c3chunk41 : run c3s40 (List.replicate 100 inpNone) = c3s41 := by decide

set_option maxRecDepth 1000000 in
lemma c3chunk42 : run c3s41 (List.replicate 100 inpNone) = c3s42 := by decide

set_option maxRecDepth 1000000 in
lemma c3chunk43 : run c3s42 (List.replicate 100 inpNone) = c3s43 := by decide

set_option maxRecDepth 1000000 in
lemma c3chunk44 : run c3s43 (List.replicate 100 inpNone) = c3s44 := by decide

set_option maxRecDepth 1000000 in
lemma c3chunk45 : run c3s44 (List.replicate 100 inpNone) = c3s45 := by decide

set_option maxRecDepth 1000000 in
lemma c3chunk46 : run c3s45 (List.replicate 100 inpNone) = c3s46 := by decide

set_option maxRecDepth 1000000 in
lemma c3chunk47 : run c3s46 (List.replicate 100 inpNone) = c3s47 := by decide

set_option maxRecDepth 1000000 in
lemma c3chunk48 : run c3s47 (List.replicate 100 inpNone) = c3s48 := by decide

set_option maxRecDepth 1000000 in
lemma c3chunk49 : run c3s48 (List.replicate 100 inpNone) = c3s49 := by decide

set_option maxRecDepth 1000000 in
lemma c3chunk50 : run c3s49 (List.replicate 100 inpNone) = c3s50 := by decide

set_option maxRecDepth 1000000 in
lemma c3chunk51 : run c3s50 (List.replicate 100 inpNone) = c3s51 := by decide

set_option maxRecDepth 1000000 in
lemma c3chunk52 : run c3s51 (List.replicate 100 inpNone) = c3s52 := by decide

set_option maxRecDepth 1000000 in
lemma c3chunk53 : run c3s52 (List.replicate 100 inpNone) = c3s53 := by decide

set_option maxRecDepth 1000000 in
lemma c3chunk54 : run c3s53 (List.replicate 100 inpNone) = c3s54 := by decide

set_option maxRecDepth 1000000 in
lemma c3chunk55 : run c3s54 (List.replicate 100 inpNone) = c3s55 := by decide

set_option maxRecDepth 1000000 in
lemma c3chunk56 : run c3s55 (List.replicate 100 inpNone) = c3s56 := by decide

set_option maxRecDepth 1000000 in
lemma c3chunk57 : run c3s56 (List.replicate 100 inpNone) = c3s57 := by decide

set_option maxRecDepth 1000000 in
lemma c3chunk58 : run c3s57 (List.replicate 100 inpNone) = c3s58 := by decide

set_option maxRecDepth 1000000 in
lemma c3chunk59 : run c3s58 (List.replicate 100 inpNone) = c3s59 := by decide

set_option maxRecDepth 1000000 in
lemma c3chunk60 : run c3s59 (List.replicate 100 inpNone) = c3s60 := by decide

set_option maxRecDepth 1000000 in
lemma c3chunk61 : run c3s60 (List.replicate 100 inpNone) = c3s61 := by decide

set_option maxRecDepth 1000000 in
lemma c3chunk62 : run c3s61 (List.replicate 100 inpNone) = c3s62 := by decide

set_option maxRecDepth 1000000 in
lemma c3chunk63 : run c3s62 (List.replicate 100 inpNone) = c3s63 := by decide

set_option maxRecDepth 1000000 in
lemma c3chunk64 : run c3s63 (List.replicate 100 inpNone) = c3s64 := by decide

set_option maxRecDepth 1000000 in
lemma c3chunk65 : run c3s64 (List.replicate 100 inpNone) = c3s65 := by decide

set_option maxRecDepth 1000000 in
lemma c3chunk66 : run c3s65 (List.replicate 100 inpNone) = c3s66 := by decide

set_option maxRecDepth 1000000 in
lemma c3chunk67 : run c3s66 (List.replicate 100 inpNone) = c3s67 := by decide

set_option maxRecDepth 1000000 in
lemma c3chunk68 : run c3s67 (List.replicate 100 inpNone) = c3s68 := by decide

set_option maxRecDepth 1000000 in
lemma c3chunk69 : run c3s68 (List.replicate 100 inpNone) = c3s69 := by decide

set_option maxRecDepth 1000000 in
lemma c3chunk70 : run c3s69 (List.replicate 100 inpNone) = c3s70 := by decide

set_option maxRecDepth 1000000 in
lemma c3chunk71 : run c3s70 (List.replicate 100 inpNone) = c3s71 := by decide

set_option maxRecDepth 1000000 in
lemma c3chunk72 : run c3s71 (List.replicate 100 inpNone) = c3s72 := by decide

set_option maxRecDepth 1000000 in
lemma c3chunk73 : run c3s72 (List.replicate 100 inpNone) = c3s73 := by decide

set_option maxRecDepth 1000000 in
lemma c3chunk74 : run c3s73 (List.replicate 100 inpNone) = c3s74 := by decide

set_option maxRecDepth 1000000 in
lemma c3chunk75 : run c3s74 (List.replicate 100 inpNone) = c3s75 := by decide

set_option maxRecDepth 1000000 in
lemma c3chunk76 : run c3s75 (List.replicate 100 inpNone) = c3s76 := by decide

set_option maxRecDepth 1000000 in
lemma c3chunk77 : run c3s76 (List.replicate 100 inpNone) = c3s77 := by decide

set_option maxRecDepth 1000000 in
lemma c3chunk78 : run c3s77 (List.replicate 100 inpNone) = c3s78 := by decide

set_option maxRecDepth 1000000 in
lemma c3chunk79 : run c3s78 (List.replicate 100 inpNone) = c3s79 := by decide

set_option maxRecDepth 1000000 in
lemma c3chunk80 : run c3s79 (List.replicate 100 inpNone) = c3s80 := by decide

set_option maxRecDepth 1000000 in
lemma c3chunk81 : run c3s80 (List.replicate 100 inpNone) = c3s81 := by decide

set_option maxRecDepth 1000000 in
lemma c3chunk82 : run c3s81 (List.replicate 100 inpNone) = c3s82 := by decide

set_option maxRecDepth 1000000 in
lemma c3chunk83 : run c3s82 (List.replicate 100 inpNone) = c3s83 := by decide

set_option maxRecDepth 1000000 in
lemma c3chunk84 : run c3s83 (List.replicate 100 inpNone) = c3s84 := by decide

set_option maxRecDepth 1000000 in
lemma c3chunk85 : run c3s84 (List.replicate 100 inpNone) = c3s85 := by decide

set_option maxRecDepth 1000000 in
lemma c3chunk86 : run c3s85 (List.replicate 100 inpNone) = c3s86 := by decide

set_option maxRecDepth 1000000 in
lemma c3chunk87 : run c3s86 (List.replicate 100 inpNone) = c3s87 := by decide

set_option maxRecDepth 1000000 in
lemma c3chunk88 : run c3s87 (List.replicate 100 inpNone) = c3s88 := by decide

set_option maxRecDepth 1000000 in
lemma c3chunk89 : run c3s88 (List.replicate 100 inpNone) = c3s89 := by decide

set_option maxRecDepth 1000000 in
lemma c3chunk90 : run c3s89 (List.replicate 67 inpNone) = c3s90 := by decide

set_option maxRecDepth 1000000 in
lemma c8chunk1 : run resetState (List.replicate 100 inpC8) = c8s1 := by decide

set_option maxRecDepth 1000000 in
lemma c8chunk2 : run c8s1 (List.replicate 100 inpC8) = c8s2 := by decide

set_option maxRecDepth 1000000 in
lemma c8chunk3 : run c8s2 (List.replicate 100 inpC8) = c8s3 := by decide

set_option maxRecDepth 1000000 in
lemma c8chunk4 : run c8s3 (List.replicate 100 inpC8) = c8s4 := by decide

set_option maxRecDepth 1000000 in
lemma c8chunk5 : run c8s4 (List.replicate 28 inpC8) = c8s5 := by decide

lemma c3reach : run resetState c3inputs = c3s90 := by
  unfold c3inputs
  rw [run_append, c3chunk1, run_append, c3chunk2, run_append, c3chunk3, run_append, c3chunk4, run_append, c3chunk5, run_append, c3chunk6, run_append, c3chunk7, run_append, c3chunk8, run_append, c3chunk9, run_append, c3chunk10, run_append, c3chunk11, run_append, c3chunk12, run_append, c3chunk13, run_append, c3chunk14, run_append, c3chunk15, run_append, c3chunk16, run_append, c3chunk17, run_append, c3chunk18, run_append, c3chunk19, run_append, c3chunk20, run_append, c3chunk21, run_append, c3chunk22, run_append, c3chunk23, run_append, c3chunk24, run_append, c3chunk25, run_append, c3chunk26, run_append, c3chunk27, run_append, c3chunk28, run_append, c3chunk29, run_append, c3chunk30, run_append, c3chunk31, run_append, c3chunk32, run_append, c3chunk33, run_append, c3chunk34, run_append, c3chunk35, run_append, c3chunk36, run_append, c3chunk37, run_append, c3chunk38, run_append, c3chunk39, run_append, c3chunk40, run_append, c3chunk41, run_append, c3chunk42, run_append, c3chunk43, run_append, c3chunk44, run_append, c3chunk45, run_append, c3chunk46, run_append, c3chunk47, run_append, c3chunk48, run_append, c3chunk49, run_append, c3chunk50, run_append, c3chunk51, run_append, c3chunk52, run_append, c3chunk53, run_append, c3chunk54, run_append, c3chunk55, run_append, c3chunk56, run_append, c3chunk57, run_append, c3chunk58, run_append, c3chunk59, run_append, c3chunk60, run_append, c3chunk61, run_append, c3chunk62, run_append, c3chunk63, run_append, c3chunk64, run_append, c3chunk65, run_append, c3chunk66, run_append, c3chunk67, run_append, c3chunk68, run_append, c3chunk69, run_append, c3chunk70, run_append, c3chunk71, run_append, c3chunk72, run_append, c3chunk73, run_append, c3chunk74, run_append, c3chunk75, run_append, c3chunk76, run_append, c3chunk77, run_append, c3chunk78, run_append, c3chunk79, run_append, c3chunk80, run_append, c3chunk81, run_append, c3chunk82, run_append, c3chunk83, run_append, c3chunk84, run_append, c3chunk85, run_append, c3chunk86, run_append, c3chunk87, run_append, c3chunk88, run_append, c3chunk89]
  exact c3chunk90

lemma c8reach : run resetState c8inputs = c8s5 := by
  unfold c8inputs
  rw [run_append, c8chunk1, run_append, c8chunk2, run_append, c8chunk3, run_append, c8chunk4]
  exact c8chunk5

/-- Counterexample to claim C3 as stated: the state reached after 8967
ticks of a concrete input trace has score 215 and speed 18 (the cap), and
the next tick retires an obstacle carrying the score to 216 — a multiple of
8 crossed from below — yet the speed does not increase by the fixed
increment 0.5: the cap holds it at 18. -/
theorem c3_counterexample :
    Reachable c3s90 ∧ c3s90.game_over = false ∧
    (step c3s90 inpNone).score = c3s90.score + 1 ∧
    (step c3s90 inpNone).score % 8 = 0 ∧
    ¬ (step c3s90 inpNone).enemy_spd = c3s90.enemy_spd + 1/2 := by
  refine ⟨⟨c3inputs, c3reach⟩, rfl, ?_, ?_, ?_⟩
  · decide
  · decide
  · decide

/-- Counterexample to claim C8 as stated: the state reached after 428 ticks
of a concrete input trace is in GameOver with the cooldown spent; the next
tick, whose input stores a hand signal, is taken while the game-over flag is
true, yet it resets lives from 0 to 3 and empties the obstacle collection —
they are not left unchanged. -/
theorem c8_counterexample :
    Reachable c8s5 ∧ c8s5.game_over = true ∧
    ¬ (step c8s5 inpHand).lives = c8s5.lives ∧
    ¬ (step c8s5 inpHand).enemies = c8s5.enemies := by
  refine ⟨⟨c8inputs, c8reach⟩, rfl, ?_, ?_⟩
  · decide
  · decide

end CarGame
